import Mathlib

/-! accounting-go: ledger / balance consistency

A shallow embedding of the transaction service (`internal/service/transaction_service.go`),
the domain entities and errors, the repository interfaces and their PostgreSQL
implementations (`internal/repository/postgres`), followed by theorems about them.

Conventions of the embedding

* Go `float64` money is `Float64`, a model of IEEE-754 binary64: every addition and
  subtraction rounds to the nearest representable value (ties to even), and the comparisons
  are false as soon as an operand is NaN.
* Go `time.Time` is an integer instant; the zero time is `0`.
* `constant.TransactionType` and `constant.AccountType` are Go string types and stay strings.
* A Go result pair `(*T, error)` is a pair of options.
* Repository methods are state transformers over a store type `σ`; the service threads the
  store through its calls in program order and records every repository call it issues.
* `uuid.New()` and `time.Now()` are inputs (`newID`, `now`).
-/

namespace Accounting

/-- Go `time.Time`, as an integer instant. -/
abbrev Time := Int

/-- Go `time.Time.IsZero`. -/
def Time.IsZero (t : Time) : Bool := t == 0

/-- Go `float64` (IEEE-754 binary64): a finite value, given by the rational number it denotes,
an infinity, or NaN. `finite q` is a float64 value when `q` is representable
(`Float64.ofRat q = finite q`); the operations below only produce such values. The sign of
zero and the payload of a NaN are not represented: `-0.0` and `0.0` compare equal and add
alike, and the services never divide. -/
inductive Float64 where
  | finite (q : ℚ)
  | posInf
  | negInf
  | nan
deriving DecidableEq, Repr

namespace Float64

/-- The quotient `n / d` rounded to the nearest natural number, ties to the even one. -/
def roundHalfEven (n d : Nat) : Nat :=
  if 2 * (n % d) < d then n / d
  else if d < 2 * (n % d) then n / d + 1
  else if (n / d) % 2 = 0 then n / d
  else n / d + 1

/-- The number of binary digits of `n`, by at most `fuel` halvings. -/
def bitLength : Nat → Nat → Nat
  | 0, _ => 0
  | fuel + 1, n => if n = 0 then 0 else bitLength fuel (n / 2) + 1

/-- The integer `e` with `2 ^ e ≤ n / d < 2 ^ (e + 1)`, for positive `n` and `d`. -/
def floorLog2 (n d : Nat) : Int :=
  let e0 : Int := (bitLength n n : Int) - (bitLength d d : Int)
  if 0 ≤ e0 then (if n < d * 2 ^ e0.toNat then e0 - 1 else e0)
  else (if n * 2 ^ (-e0).toNat < d then e0 - 1 else e0)

/-- Rounding of a real (here rational) result to binary64, round-to-nearest-even: the
significand has 53 bits (`2 ^ k` is the unit in the last place, never below the subnormal
unit `2 ^ (-1074)`), and a result that rounds to `2 ^ 1024` or beyond is an infinity. -/
def ofRat (q : ℚ) : Float64 :=
  if q = 0 then finite 0
  else
    let n := q.num.natAbs
    let d := q.den
    let k : Int := max (floorLog2 n d - 52) (-1074)
    let m := roundHalfEven (n * 2 ^ (-k).toNat) (d * 2 ^ k.toNat)
    if 2 ^ 1024 * 2 ^ (-k).toNat ≤ m * 2 ^ k.toNat then
      (if q < 0 then negInf else posInf)
    else if q < 0 then finite (-(mkRat (m * 2 ^ k.toNat) (2 ^ (-k).toNat)))
    else finite (mkRat (m * 2 ^ k.toNat) (2 ^ (-k).toNat))

/-- Go unary `-x`. -/
def neg : Float64 → Float64
  | finite q => finite (-q)
  | posInf => negInf
  | negInf => posInf
  | nan => nan

/-- Go `x + y` on `float64`: the exact sum, rounded; `+Inf + -Inf` and every sum with a NaN
are NaN. -/
def add : Float64 → Float64 → Float64
  | finite a, finite b => ofRat (a + b)
  | finite _, posInf => posInf
  | finite _, negInf => negInf
  | posInf, finite _ => posInf
  | posInf, posInf => posInf
  | negInf, finite _ => negInf
  | negInf, negInf => negInf
  | _, _ => nan

/-- Go `x - y` on `float64`. -/
def sub (x y : Float64) : Float64 := add x (neg y)

/-- Go `x <= y` on `float64`: false when an operand is NaN. -/
def le : Float64 → Float64 → Bool
  | finite a, finite b => decide (a ≤ b)
  | finite _, posInf => true
  | negInf, finite _ => true
  | negInf, negInf => true
  | negInf, posInf => true
  | posInf, posInf => true
  | _, _ => false

/-- Go `x < y` on `float64`: false when an operand is NaN. -/
def lt : Float64 → Float64 → Bool
  | finite a, finite b => decide (a < b)
  | finite _, posInf => true
  | negInf, finite _ => true
  | negInf, posInf => true
  | _, _ => false

instance : Add Float64 := ⟨add⟩
instance : Sub Float64 := ⟨sub⟩
instance : Neg Float64 := ⟨neg⟩
instance : LE Float64 := ⟨fun a b => le a b = true⟩
instance : LT Float64 := ⟨fun a b => lt a b = true⟩
instance (a b : Float64) : Decidable (a ≤ b) := inferInstanceAs (Decidable (le a b = true))
instance (a b : Float64) : Decidable (a < b) := inferInstanceAs (Decidable (lt a b = true))

/-- A numeric constant of the program, converted to `float64`. -/
instance (n : Nat) : OfNat Float64 n := ⟨ofRat n⟩

/-- The number a finite `float64` denotes (`0` for an infinity or NaN). -/
def toRat : Float64 → ℚ
  | finite q => q
  | _ => 0

end Float64

namespace constant

/-- Go `type TransactionType string`. -/
abbrev TransactionType := String

def TransactionTypeIncome : TransactionType := "INCOME"
def TransactionTypeExpense : TransactionType := "EXPENSE"
def TransactionTypeTransfer : TransactionType := "TRANSFER"

/-- Go `type AccountType string`. -/
abbrev AccountType := String

def AccountTypeChecking : AccountType := "CHECKING"
def AccountTypeSavings : AccountType := "SAVINGS"
def AccountTypeCreditCard : AccountType := "CREDIT_CARD"
def AccountTypeCash : AccountType := "CASH"
def AccountTypeInvestment : AccountType := "INVESTMENT"

end constant

namespace entity

/-- Domain entity `entity.Account`. -/
structure Account where
  ID : String
  UserID : String
  Name : String
  Type_ : constant.AccountType
  Balance : Float64
  Currency : String
deriving DecidableEq, Repr

/-- Domain entity `entity.Transaction`. -/
structure Transaction where
  ID : String
  AccountID : String
  Amount : Float64
  Currency : String
  Description : String
  Date : Time
  Type_ : constant.TransactionType
  Category : String
deriving DecidableEq, Repr

/-- Domain entity `entity.User`. -/
structure User where
  ID : String
  Name : String
  Email : String
  CreatedAt : Time
  UpdatedAt : Time
deriving DecidableEq, Repr

end entity

/-- The error values of the program: the four structs of `domain/errors`, an error
coming from `database/sql`, `fmt.Errorf("<context>: %w", cause)`, and the error of a failed
rollback, `fmt.Errorf("rolling back transaction: %v (original error: %w)", rbErr, cause)`. -/
inductive Error where
  | ErrDuplicateEmail (Email : String)
  | ErrNotFound (Entity : String) (ID : String)
  | ErrInvalidInput (Field : String) (Message : String)
  | ErrDuplicateAccount (UserID : String) (AccountName : String)
  | driver (msg : String)
  | wrapped (context : String) (cause : Error)
  | rollback (rbErr : Error) (cause : Error)
deriving DecidableEq, Repr

/-- The error wrapped with `%w`, if any (Go `errors.Unwrap`). -/
def Error.Unwrap : Error → Option Error
  | .wrapped _ cause => some cause
  | .rollback _ cause => some cause
  | _ => none

/-- Go `errors.As(err, &notFoundErr)` for `*ErrNotFound`: some error of the `%w` chain is an
`ErrNotFound`. -/
def Error.asNotFound : Error → Bool
  | .ErrNotFound _ _ => true
  | .wrapped _ cause => cause.asNotFound
  | .rollback _ cause => cause.asNotFound
  | _ => false

/-- Go `errors.As(err, &invalidErr)` for `*ErrInvalidInput`. -/
def Error.asInvalidInput : Error → Bool
  | .ErrInvalidInput _ _ => true
  | .wrapped _ cause => cause.asInvalidInput
  | .rollback _ cause => cause.asInvalidInput
  | _ => false

/-- Go `errors.Is(err, target)`: `target` is `err` or an error of its `%w` chain. -/
def Error.wraps (target : Error) : Error → Bool
  | .wrapped context cause =>
    decide (Error.wrapped context cause = target) || Error.wraps target cause
  | .rollback rbErr cause =>
    decide (Error.rollback rbErr cause = target) || Error.wraps target cause
  | e => decide (e = target)

/-- The string that the `Error()` method of an error value returns. -/
def Error.errorText : Error → String
  | .ErrDuplicateEmail email => "user with email already exists: " ++ email
  | .ErrNotFound entity id => entity ++ " not found: " ++ id
  | .ErrInvalidInput field message => "invalid input for " ++ field ++ ": " ++ message
  | .ErrDuplicateAccount userID accountName =>
    "account \"" ++ accountName ++ "\" already exists for user " ++ userID
  | .driver msg => msg
  | .wrapped context cause => context ++ ": " ++ cause.errorText
  | .rollback rbErr cause =>
    "rolling back transaction: " ++ rbErr.errorText ++ " (original error: " ++
      cause.errorText ++ ")"

namespace domainerrors

def NewErrNotFound (entity id : String) : Error := Error.ErrNotFound entity id

def NewErrInvalidInput (field message : String) : Error := Error.ErrInvalidInput field message

end domainerrors

namespace interfaces

/-- Go interface `interfaces.AccountRepository`, over a store `σ` (the listing method, which no
modelled service path calls, is left out). -/
structure AccountRepository (σ : Type) where
  Create : entity.Account → σ → Option Error × σ
  GetByID : String → σ → Option entity.Account × Option Error × σ
  Update : entity.Account → σ → Option Error × σ
  Delete : String → σ → Option Error × σ

/-- Go interface `interfaces.TransactionRepository`, over a store `σ` (the listing method,
which no modelled service path calls, is left out). -/
structure TransactionRepository (σ : Type) where
  Create : entity.Transaction → σ → Option Error × σ
  GetByID : String → σ → Option entity.Transaction × Option Error × σ
  Update : entity.Transaction → σ → Option Error × σ
  Delete : String → σ → Option Error × σ

/-- Go interface `interfaces.UserRepository`, over a store `σ`. Its declaration is not among
the sources; the method set is the one of `postgres.UserRepository` and of the test double
`MockUserRepository`. `Create` and `Update` also return the entity, because the PostgreSQL
implementation writes the timestamps back through the pointer it is given. -/
structure UserRepository (σ : Type) where
  Create : entity.User → σ → Option Error × entity.User × σ
  GetByID : String → σ → Option entity.User × Option Error × σ
  GetByEmail : String → σ → Option entity.User × Option Error × σ
  Update : entity.User → σ → Option Error × entity.User × σ
  Delete : String → σ → Option Error × σ

end interfaces

/-- A repository call issued by a service, with its argument. -/
inductive Call where
  | accountCreate (account : entity.Account)
  | accountGetByID (id : String)
  | accountUpdate (account : entity.Account)
  | accountDelete (id : String)
  | transactionCreate (transaction : entity.Transaction)
  | transactionGetByID (id : String)
  | transactionUpdate (transaction : entity.Transaction)
  | transactionDelete (id : String)
  | userCreate (user : entity.User)
  | userGetByID (id : String)
  | userGetByEmail (email : String)
  | userUpdate (user : entity.User)
  | userDelete (id : String)
deriving DecidableEq, Repr

/-- A call is a write when it is a create, an update or a delete. -/
def Call.isWrite : Call → Bool
  | .accountCreate _ => true
  | .accountUpdate _ => true
  | .accountDelete _ => true
  | .transactionCreate _ => true
  | .transactionUpdate _ => true
  | .transactionDelete _ => true
  | .userCreate _ => true
  | .userUpdate _ => true
  | .userDelete _ => true
  | _ => false

/-- The entry a repository call stores, if the call is `transactionRepo.Create` or
`transactionRepo.Update`. -/
def Call.storedTransaction : Call → Option entity.Transaction
  | .transactionCreate t => some t
  | .transactionUpdate t => some t
  | _ => none

/-- What a service method leaves behind: the Go result pair, the store after the call and
the repository calls issued, in order. -/
structure Outcome (σ α : Type) where
  value : Option α
  err : Option Error
  state : σ
  calls : List Call

namespace service

/-- The `switch transactionType` of `CreateTransaction`: the account with its balance adjusted. -/
def applyBalance (account : entity.Account) (transactionType : constant.TransactionType)
    (amount : Float64) : entity.Account :=
  if transactionType = constant.TransactionTypeIncome then
    { account with Balance := account.Balance + amount }
  else if transactionType = constant.TransactionTypeExpense then
    { account with Balance := account.Balance - amount }
  else account

/-- The entry that `CreateTransaction` builds: `date` defaults to `time.Now()` when it is
the zero time, and the id is the fresh `uuid.New().String()`. -/
def newTransaction (newID : String) (now : Time) (accountID : String) (amount : Float64)
    (currency description category : String) (transactionType : constant.TransactionType)
    (date : Time) : entity.Transaction :=
  let date := if date.IsZero then now else date
  { ID := newID, AccountID := accountID, Amount := amount, Currency := currency,
    Description := description, Date := date, Type_ := transactionType, Category := category }

/-- `TransactionService.CreateTransaction`. -/
def CreateTransaction {σ : Type} (transactionRepo : interfaces.TransactionRepository σ)
    (accountRepo : interfaces.AccountRepository σ) (newID : String) (now : Time)
    (accountID : String) (amount : Float64) (currency description category : String)
    (transactionType : constant.TransactionType) (date : Time) (s : σ) :
    Outcome σ entity.Transaction :=
  if accountID = "" then
    ⟨none, some (domainerrors.NewErrInvalidInput "account_id" "account ID is required"), s, []⟩
  else if amount ≤ 0 then
    ⟨none, some (domainerrors.NewErrInvalidInput "amount" "amount must be greater than zero"), s, []⟩
  else if currency = "" then
    ⟨none, some (domainerrors.NewErrInvalidInput "currency" "currency is required"), s, []⟩
  else
    match accountRepo.GetByID accountID s with
    | (_, some err, s1) =>
      ⟨none, some (Error.wrapped "verifying account" err), s1, [Call.accountGetByID accountID]⟩
    | (none, none, s1) =>
      ⟨none, some (domainerrors.NewErrNotFound "account" accountID), s1,
        [Call.accountGetByID accountID]⟩
    | (some account, none, s1) =>
      let transaction :=
        newTransaction newID now accountID amount currency description category
          transactionType date
      match transactionRepo.Create transaction s1 with
      | (some err, s2) =>
        ⟨none, some (Error.wrapped "creating transaction" err), s2,
          [Call.accountGetByID accountID, Call.transactionCreate transaction]⟩
      | (none, s2) =>
        let account := applyBalance account transactionType amount
        match accountRepo.Update account s2 with
        | (some err, s3) =>
          ⟨none, some (Error.wrapped "updating account balance" err), s3,
            [Call.accountGetByID accountID, Call.transactionCreate transaction,
              Call.accountUpdate account]⟩
        | (none, s3) =>
          ⟨some transaction, none, s3,
            [Call.accountGetByID accountID, Call.transactionCreate transaction,
              Call.accountUpdate account]⟩

/-- The field assignments of `UpdateTransaction`: each supplied (non-zero) argument
overwrites the corresponding field of the fetched entry; `amount` counts as supplied only
when it is greater than zero. -/
def patchTransaction (transaction : entity.Transaction) (amount : Float64)
    (currency description category : String) (transactionType : constant.TransactionType)
    (date : Time) : entity.Transaction :=
  let transaction := if amount > 0 then { transaction with Amount := amount } else transaction
  let transaction :=
    if currency ≠ "" then { transaction with Currency := currency } else transaction
  let transaction :=
    if description ≠ "" then { transaction with Description := description } else transaction
  let transaction :=
    if category ≠ "" then { transaction with Category := category } else transaction
  let transaction :=
    if transactionType ≠ "" then { transaction with Type_ := transactionType } else transaction
  if !date.IsZero then { transaction with Date := date } else transaction

/-- `TransactionService.UpdateTransaction`. -/
def UpdateTransaction {σ : Type} (transactionRepo : interfaces.TransactionRepository σ)
    (id : String) (amount : Float64) (currency description category : String)
    (transactionType : constant.TransactionType) (date : Time) (s : σ) :
    Outcome σ entity.Transaction :=
  match transactionRepo.GetByID id s with
  | (_, some err, s1) =>
    ⟨none, some (Error.wrapped "getting transaction" err), s1, [Call.transactionGetByID id]⟩
  | (none, none, s1) =>
    ⟨none, some (domainerrors.NewErrNotFound "transaction" id), s1, [Call.transactionGetByID id]⟩
  | (some transaction, none, s1) =>
    let transaction :=
      patchTransaction transaction amount currency description category transactionType date
    match transactionRepo.Update transaction s1 with
    | (some err, s2) =>
      ⟨none, some (Error.wrapped "updating transaction" err), s2,
        [Call.transactionGetByID id, Call.transactionUpdate transaction]⟩
    | (none, s2) =>
      ⟨some transaction, none, s2,
        [Call.transactionGetByID id, Call.transactionUpdate transaction]⟩

/-- `TransactionService.DeleteTransaction`: the result of `transactionRepo.Delete`, as is. -/
def DeleteTransaction {σ : Type} (transactionRepo : interfaces.TransactionRepository σ)
    (id : String) (s : σ) : Outcome σ Unit :=
  match transactionRepo.Delete id s with
  | (err, s1) => ⟨none, err, s1, [Call.transactionDelete id]⟩

/-- The account that `CreateAccount` builds: balance `0.0` and a fresh id. -/
def newAccount (newID userID name : String) (accountType : constant.AccountType)
    (currency : String) : entity.Account :=
  { ID := newID, UserID := userID, Name := name, Type_ := accountType, Balance := 0,
    Currency := currency }

/-- `AccountService.CreateAccount`. -/
def CreateAccount {σ : Type} (accountRepo : interfaces.AccountRepository σ)
    (userRepo : interfaces.UserRepository σ) (newID : String)
    (userID name : String) (accountType : constant.AccountType) (currency : String) (s : σ) :
    Outcome σ entity.Account :=
  if userID = "" then
    ⟨none, some (domainerrors.NewErrInvalidInput "user_id" "user ID is required"), s, []⟩
  else if name = "" then
    ⟨none, some (domainerrors.NewErrInvalidInput "name" "account name is required"), s, []⟩
  else if currency = "" then
    ⟨none, some (domainerrors.NewErrInvalidInput "currency" "currency is required"), s, []⟩
  else
    match userRepo.GetByID userID s with
    | (_, some err, s1) =>
      ⟨none, some (Error.wrapped "verifying user" err), s1, [Call.userGetByID userID]⟩
    | (none, none, s1) =>
      ⟨none, some (domainerrors.NewErrNotFound "user" userID), s1, [Call.userGetByID userID]⟩
    | (some _, none, s1) =>
      let account := newAccount newID userID name accountType currency
      match accountRepo.Create account s1 with
      | (some err, s2) =>
        ⟨none, some (Error.wrapped "creating account" err), s2,
          [Call.userGetByID userID, Call.accountCreate account]⟩
      | (none, s2) =>
        ⟨some account, none, s2, [Call.userGetByID userID, Call.accountCreate account]⟩

/-- The field assignments of `UpdateAccount`: each non-empty argument overwrites the
corresponding field of the fetched account. -/
def patchAccount (account : entity.Account) (name : String)
    (accountType : constant.AccountType) (currency : String) : entity.Account :=
  let account := if name ≠ "" then { account with Name := name } else account
  let account := if accountType ≠ "" then { account with Type_ := accountType } else account
  if currency ≠ "" then { account with Currency := currency } else account

/-- `AccountService.UpdateAccount`. -/
def UpdateAccount {σ : Type} (accountRepo : interfaces.AccountRepository σ)
    (id name : String) (accountType : constant.AccountType) (currency : String) (s : σ) :
    Outcome σ entity.Account :=
  match accountRepo.GetByID id s with
  | (_, some err, s1) =>
    ⟨none, some (Error.wrapped "getting account" err), s1, [Call.accountGetByID id]⟩
  | (none, none, s1) =>
    ⟨none, some (domainerrors.NewErrNotFound "account" id), s1, [Call.accountGetByID id]⟩
  | (some account, none, s1) =>
    let account := patchAccount account name accountType currency
    match accountRepo.Update account s1 with
    | (some err, s2) =>
      ⟨none, some (Error.wrapped "updating account" err), s2,
        [Call.accountGetByID id, Call.accountUpdate account]⟩
    | (none, s2) =>
      ⟨some account, none, s2, [Call.accountGetByID id, Call.accountUpdate account]⟩

/-- `AccountService.DeleteAccount`: the result of `accountRepo.Delete`, as is. -/
def DeleteAccount {σ : Type} (accountRepo : interfaces.AccountRepository σ)
    (id : String) (s : σ) : Outcome σ Unit :=
  match accountRepo.Delete id s with
  | (err, s1) => ⟨none, err, s1, [Call.accountDelete id]⟩

/-- The field assignments of `UpdateUser`. -/
def patchUser (user : entity.User) (name email : String) : entity.User :=
  let user := if name ≠ "" then { user with Name := name } else user
  if email ≠ "" then { user with Email := email } else user

/-- `UserService.UpdateUser`; the user returned is the one the repository's `Update` leaves
behind the pointer. -/
def UpdateUser {σ : Type} (repo : interfaces.UserRepository σ)
    (id name email : String) (s : σ) : Outcome σ entity.User :=
  match repo.GetByID id s with
  | (_, some err, s1) =>
    ⟨none, some (Error.wrapped "getting user" err), s1, [Call.userGetByID id]⟩
  | (none, none, s1) =>
    ⟨none, some (domainerrors.NewErrNotFound "user" id), s1, [Call.userGetByID id]⟩
  | (some user, none, s1) =>
    let user := patchUser user name email
    match repo.Update user s1 with
    | (some err, _, s2) =>
      ⟨none, some (Error.wrapped "updating user" err), s2,
        [Call.userGetByID id, Call.userUpdate user]⟩
    | (none, stored, s2) =>
      ⟨some stored, none, s2, [Call.userGetByID id, Call.userUpdate user]⟩

/-- The arguments of one `CreateTransaction` call, with the id (`uuid.New()`) and the time
(`time.Now()`) that the call draws. -/
structure CreateRequest where
  newID : String
  now : Time
  accountID : String
  amount : Float64
  currency : String
  description : String
  category : String
  transactionType : constant.TransactionType
  date : Time
deriving DecidableEq, Repr

/-- `CreateTransaction` applied to a request. -/
def CreateRequest.run {σ : Type} (transactionRepo : interfaces.TransactionRepository σ)
    (accountRepo : interfaces.AccountRepository σ) (r : CreateRequest) (s : σ) :
    Outcome σ entity.Transaction :=
  CreateTransaction transactionRepo accountRepo r.newID r.now r.accountID r.amount r.currency
    r.description r.category r.transactionType r.date s

/-- A sequence of `CreateTransaction` calls, each running to completion before the next
starts: the store at the end. -/
def createAll {σ : Type} (transactionRepo : interfaces.TransactionRepository σ)
    (accountRepo : interfaces.AccountRepository σ) : List CreateRequest → σ → σ
  | [], s => s
  | r :: rs, s => createAll transactionRepo accountRepo rs (r.run transactionRepo accountRepo s).state

/-- Every call of the sequence returned without error. -/
def allSucceed {σ : Type} (transactionRepo : interfaces.TransactionRepository σ)
    (accountRepo : interfaces.AccountRepository σ) : List CreateRequest → σ → Bool
  | [], _ => true
  | r :: rs, s =>
    (r.run transactionRepo accountRepo s).err.isNone &&
      allSucceed transactionRepo accountRepo rs (r.run transactionRepo accountRepo s).state

/-- The signed delta of a ledger entry, in the words of the specification: `+amount` for
income, `-amount` for expense (and nothing for any other type tag), as an exact number. -/
def signedDelta (transactionType : constant.TransactionType) (amount : ℚ) : ℚ :=
  if transactionType = "INCOME" then amount
  else if transactionType = "EXPENSE" then -amount
  else 0

/-- The balance after one entry, in `float64` arithmetic: the amount added for income and
subtracted for expense, the sum or difference rounded; unchanged for any other type tag. -/
def balanceAfter (balance : Float64) (r : CreateRequest) : Float64 :=
  if r.transactionType = "INCOME" then balance + r.amount
  else if r.transactionType = "EXPENSE" then balance - r.amount
  else balance

/-- The running total of a sequence of entries: the entries applied to the balance one at a
time, in call order, every step rounded to `float64`. -/
def runningTotal (b0 : Float64) (reqs : List CreateRequest) : Float64 :=
  reqs.foldl balanceAfter b0

/-- No step of the running total from the exact balance `q0` rounds: every amount is finite
and every partial sum `q0 ± a1 ± ... ± ai` is a `float64` value. -/
def exactSteps : ℚ → List CreateRequest → Bool
  | _, [] => true
  | q, r :: rs =>
    match r.amount with
    | .finite a =>
      decide (Float64.ofRat (q + signedDelta r.transactionType a) =
        .finite (q + signedDelta r.transactionType a)) &&
      exactSteps (q + signedDelta r.transactionType a) rs
    | _ => false

/-- One call of the transaction service that writes an entry: a `CreateTransaction` call or
an `UpdateTransaction` call with its arguments. -/
inductive TransactionOp where
  | create (r : CreateRequest)
  | update (id : String) (amount : Float64) (currency description category : String)
      (transactionType : constant.TransactionType) (date : Time)
deriving DecidableEq, Repr

/-- The service call of an operation. -/
def TransactionOp.run {σ : Type} (transactionRepo : interfaces.TransactionRepository σ)
    (accountRepo : interfaces.AccountRepository σ) :
    TransactionOp → σ → Outcome σ entity.Transaction
  | .create r, s => r.run transactionRepo accountRepo s
  | .update id amount currency description category transactionType date, s =>
    UpdateTransaction transactionRepo id amount currency description category transactionType
      date s

/-- A sequence of service calls, one after the other: all repository calls issued, in order,
and the store at the end. -/
def runOps {σ : Type} (transactionRepo : interfaces.TransactionRepository σ)
    (accountRepo : interfaces.AccountRepository σ) : List TransactionOp → σ → List Call × σ
  | [], s => ([], s)
  | op :: ops, s =>
    ((op.run transactionRepo accountRepo s).calls ++
        (runOps transactionRepo accountRepo ops (op.run transactionRepo accountRepo s).state).1,
      (runOps transactionRepo accountRepo ops (op.run transactionRepo accountRepo s).state).2)

/-- Along a sequence of service calls, every entry that `transactionRepo.GetByID` returns to
an `UpdateTransaction` call has an amount greater than zero. -/
def fetchedPositive {σ : Type} (transactionRepo : interfaces.TransactionRepository σ)
    (accountRepo : interfaces.AccountRepository σ) : List TransactionOp → σ → Bool
  | [], _ => true
  | .create r :: ops, s =>
    fetchedPositive transactionRepo accountRepo ops (r.run transactionRepo accountRepo s).state
  | .update id amount currency description category transactionType date :: ops, s =>
    (match (transactionRepo.GetByID id s).1 with
      | some t => decide (0 < t.Amount)
      | none => true) &&
    fetchedPositive transactionRepo accountRepo ops
      (UpdateTransaction transactionRepo id amount currency description category
        transactionType date s).state

/-- A sequential store, seen through `view s id` (the account the store holds under `id`):
an `accountRepo.GetByID` that returns without error returns the account held and changes no
account, a successful ledger insert changes no account, a successful `accountRepo.Update`
leaves its argument held under the argument's id, and an account is held under its own id. -/
structure SequentialStore {σ : Type} (transactionRepo : interfaces.TransactionRepository σ)
    (accountRepo : interfaces.AccountRepository σ)
    (view : σ → String → Option entity.Account) : Prop where
  getByID_reads : ∀ id s oa s1, accountRepo.GetByID id s = (oa, none, s1) →
    oa = view s id ∧ view s1 = view s
  create_keeps : ∀ t s s1, transactionRepo.Create t s = (none, s1) → view s1 = view s
  update_stores : ∀ a s s1, accountRepo.Update a s = (none, s1) → view s1 a.ID = some a
  view_id : ∀ s id a, view s id = some a → a.ID = id

/-- The point a running `CreateTransaction` call has reached. Another request can run
between two repository calls of this one, so the control points are: at entry, holding the
account read by `accountRepo.GetByID` (before `transactionRepo.Create`), holding the account
and the inserted transaction (before `accountRepo.Update`), and returned. -/
inductive CreateState where
  | entry
  | afterGetByID (account : entity.Account)
  | afterCreate (account : entity.Account) (transaction : entity.Transaction)
  | returned (value : Option entity.Transaction) (err : Option Error)
deriving DecidableEq, Repr

/-- `CreateTransaction`, one repository call at a time: the code from a control point up to
and including the next repository call. -/
def CreateRequest.step {σ : Type} (transactionRepo : interfaces.TransactionRepository σ)
    (accountRepo : interfaces.AccountRepository σ) (r : CreateRequest) :
    CreateState → σ → CreateState × σ
  | .entry, s =>
    if r.accountID = "" then
      (.returned none
        (some (domainerrors.NewErrInvalidInput "account_id" "account ID is required")), s)
    else if r.amount ≤ 0 then
      (.returned none
        (some (domainerrors.NewErrInvalidInput "amount" "amount must be greater than zero")), s)
    else if r.currency = "" then
      (.returned none
        (some (domainerrors.NewErrInvalidInput "currency" "currency is required")), s)
    else
      match accountRepo.GetByID r.accountID s with
      | (_, some err, s1) => (.returned none (some (Error.wrapped "verifying account" err)), s1)
      | (none, none, s1) =>
        (.returned none (some (domainerrors.NewErrNotFound "account" r.accountID)), s1)
      | (some account, none, s1) => (.afterGetByID account, s1)
  | .afterGetByID account, s =>
    let transaction :=
      newTransaction r.newID r.now r.accountID r.amount r.currency r.description r.category
        r.transactionType r.date
    match transactionRepo.Create transaction s with
    | (some err, s2) => (.returned none (some (Error.wrapped "creating transaction" err)), s2)
    | (none, s2) => (.afterCreate account transaction, s2)
  | .afterCreate account transaction, s =>
    let account := applyBalance account r.transactionType r.amount
    match accountRepo.Update account s with
    | (some err, s3) =>
      (.returned none (some (Error.wrapped "updating account balance" err)), s3)
    | (none, s3) => (.returned (some transaction) none, s3)
  | .returned value err, s => (.returned value err, s)

/-- Requests in flight over one shared store. The schedule lists, in order, which request
performs its next step. -/
def runSchedule {σ : Type} (transactionRepo : interfaces.TransactionRepository σ)
    (accountRepo : interfaces.AccountRepository σ) :
    List Nat → List (CreateRequest × CreateState) → σ → List (CreateRequest × CreateState) × σ
  | [], reqs, s => (reqs, s)
  | i :: rest, reqs, s =>
    match reqs[i]? with
    | none => runSchedule transactionRepo accountRepo rest reqs s
    | some (r, c) =>
      runSchedule transactionRepo accountRepo rest
        (reqs.set i (r, (r.step transactionRepo accountRepo c s).1))
        (r.step transactionRepo accountRepo c s).2

/-- A request in flight has returned successfully. -/
def CreateState.succeeded : CreateState → Bool
  | .returned (some _) none => true
  | _ => false

end service

namespace repoEntity

/-- Row type `repository/entity.Account`. -/
structure Account where
  ID : String
  UserID : String
  Name : String
  Type_ : String
  Balance : Float64
  Currency : String
  CreatedAt : Time
  UpdatedAt : Time
deriving DecidableEq, Repr

/-- Row type `repository/entity.Transaction`. -/
structure Transaction where
  ID : String
  AccountID : String
  Amount : Float64
  Currency : String
  Description : String
  Date : Time
  Type_ : String
  Category : String
  CreatedAt : Time
  UpdatedAt : Time
deriving DecidableEq, Repr

/-- Row type `repository/entity.User`. -/
structure User where
  ID : String
  Name : String
  Email : String
  CreatedAt : Time
  UpdatedAt : Time
deriving DecidableEq, Repr

end repoEntity

namespace postgres

/-- The database behind `*sql.DB`: the tables, the wall clock read by `time.Now()`, and a
script of storage faults. Each statement sent to the database consumes the head of the
script: `some msg` makes that statement fail with a driver error and no effect, `none` (or an
exhausted script) lets it run. Connectivity loss, constraint violations and serialization
conflicts all enter through the script. -/
structure DB where
  accounts : List repoEntity.Account
  transactions : List repoEntity.Transaction
  clock : Time
  faults : List (Option String)
  users : List repoEntity.User := []
deriving DecidableEq, Repr

/-- One statement reaches the database. -/
def DB.statement (db : DB) : Option String × DB :=
  match db.faults with
  | [] => (none, db)
  | f :: rest => (f, { db with faults := rest })

/-- Mapper `toRepoAccount` (the timestamps keep their zero value). -/
def toRepoAccount (account : entity.Account) : repoEntity.Account :=
  { ID := account.ID, UserID := account.UserID, Name := account.Name, Type_ := account.Type_,
    Balance := account.Balance, Currency := account.Currency, CreatedAt := 0, UpdatedAt := 0 }

/-- Mapper `toDomainAccount`. -/
def toDomainAccount (dbAccount : repoEntity.Account) : entity.Account :=
  { ID := dbAccount.ID, UserID := dbAccount.UserID, Name := dbAccount.Name,
    Type_ := dbAccount.Type_, Balance := dbAccount.Balance, Currency := dbAccount.Currency }

/-- `AccountRepository.Create`: `INSERT INTO accounts ...`. -/
def AccountRepository.Create (account : entity.Account) (db : DB) : Option Error × DB :=
  let dbAccount := toRepoAccount account
  let now := db.clock
  let dbAccount := { dbAccount with CreatedAt := now, UpdatedAt := now }
  match db.statement with
  | (some e, db1) => (some (Error.driver e), db1)
  | (none, db1) => (none, { db1 with accounts := db1.accounts ++ [dbAccount] })

/-- `AccountRepository.GetByID`: `SELECT ... FROM accounts WHERE id = $1`, scanned into a row
whose timestamps stay zero; `sql.ErrNoRows` becomes `(nil, nil)`. -/
def AccountRepository.GetByID (id : String) (db : DB) :
    Option entity.Account × Option Error × DB :=
  match db.statement with
  | (some e, db1) => (none, some (Error.driver e), db1)
  | (none, db1) =>
    match db1.accounts.find? (fun r => r.ID == id) with
    | none => (none, none, db1)
    | some row =>
      (some (toDomainAccount { row with CreatedAt := 0, UpdatedAt := 0 }), none, db1)

/-- `AccountRepository.Update`:
`UPDATE accounts SET user_id = $2, name = $3, type = $4, balance = $5, currency = $6,
updated_at = $7 WHERE id = $1`; no affected row is `ErrNotFound` (reading the affected-row
count is taken not to fail). -/
def AccountRepository.Update (account : entity.Account) (db : DB) : Option Error × DB :=
  let dbAccount := { toRepoAccount account with UpdatedAt := db.clock }
  match db.statement with
  | (some e, db1) => (some (Error.driver e), db1)
  | (none, db1) =>
    let rows := (db1.accounts.filter (fun r => r.ID == dbAccount.ID)).length
    let db2 := { db1 with accounts := db1.accounts.map (fun r =>
      if r.ID == dbAccount.ID then
        { r with UserID := dbAccount.UserID, Name := dbAccount.Name, Type_ := dbAccount.Type_,
                 Balance := dbAccount.Balance, Currency := dbAccount.Currency,
                 UpdatedAt := dbAccount.UpdatedAt }
      else r) }
    if rows = 0 then (some (domainerrors.NewErrNotFound "account" account.ID), db2)
    else (none, db2)

/-- `AccountRepository.Delete`: `DELETE FROM accounts WHERE id = $1`. -/
def AccountRepository.Delete (id : String) (db : DB) : Option Error × DB :=
  match db.statement with
  | (some e, db1) => (some (Error.driver e), db1)
  | (none, db1) =>
    let rows := (db1.accounts.filter (fun r => r.ID == id)).length
    let db2 := { db1 with accounts := db1.accounts.filter (fun r => !(r.ID == id)) }
    if rows = 0 then (some (domainerrors.NewErrNotFound "account" id), db2) else (none, db2)

/-- `NewAccountRepository`. -/
def NewAccountRepository : interfaces.AccountRepository DB :=
  { Create := AccountRepository.Create, GetByID := AccountRepository.GetByID,
    Update := AccountRepository.Update, Delete := AccountRepository.Delete }

/-- Mapper `toRepoTransaction` (the timestamps keep their zero value). -/
def toRepoTransaction (transaction : entity.Transaction) : repoEntity.Transaction :=
  { ID := transaction.ID, AccountID := transaction.AccountID, Amount := transaction.Amount,
    Currency := transaction.Currency, Description := transaction.Description,
    Date := transaction.Date, Type_ := transaction.Type_, Category := transaction.Category,
    CreatedAt := 0, UpdatedAt := 0 }

/-- Mapper `toDomainTransaction`. -/
def toDomainTransaction (dbTransaction : repoEntity.Transaction) : entity.Transaction :=
  { ID := dbTransaction.ID, AccountID := dbTransaction.AccountID,
    Amount := dbTransaction.Amount, Currency := dbTransaction.Currency,
    Description := dbTransaction.Description, Date := dbTransaction.Date,
    Type_ := dbTransaction.Type_, Category := dbTransaction.Category }

/-- `TransactionRepository.Create`: `INSERT INTO transactions ...`. -/
def TransactionRepository.Create (transaction : entity.Transaction) (db : DB) :
    Option Error × DB :=
  let dbTransaction := toRepoTransaction transaction
  let now := db.clock
  let dbTransaction := { dbTransaction with CreatedAt := now, UpdatedAt := now }
  match db.statement with
  | (some e, db1) => (some (Error.driver e), db1)
  | (none, db1) => (none, { db1 with transactions := db1.transactions ++ [dbTransaction] })

/-- `TransactionRepository.GetByID`: `SELECT ... FROM transactions WHERE id = $1`. -/
def TransactionRepository.GetByID (id : String) (db : DB) :
    Option entity.Transaction × Option Error × DB :=
  match db.statement with
  | (some e, db1) => (none, some (Error.driver e), db1)
  | (none, db1) =>
    match db1.transactions.find? (fun r => r.ID == id) with
    | none => (none, none, db1)
    | some row =>
      (some (toDomainTransaction { row with CreatedAt := 0, UpdatedAt := 0 }), none, db1)

/-- `TransactionRepository.Update`:
`UPDATE transactions SET account_id = $2, amount = $3, currency = $4, description = $5,
date = $6, type = $7, category = $8, updated_at = $9 WHERE id = $1`. -/
def TransactionRepository.Update (transaction : entity.Transaction) (db : DB) :
    Option Error × DB :=
  let dbTransaction := { toRepoTransaction transaction with UpdatedAt := db.clock }
  match db.statement with
  | (some e, db1) => (some (Error.driver e), db1)
  | (none, db1) =>
    let rows := (db1.transactions.filter (fun r => r.ID == dbTransaction.ID)).length
    let db2 := { db1 with transactions := db1.transactions.map (fun r =>
      if r.ID == dbTransaction.ID then
        { r with AccountID := dbTransaction.AccountID, Amount := dbTransaction.Amount,
                 Currency := dbTransaction.Currency,
                 Description := dbTransaction.Description, Date := dbTransaction.Date,
                 Type_ := dbTransaction.Type_, Category := dbTransaction.Category,
                 UpdatedAt := dbTransaction.UpdatedAt }
      else r) }
    if rows = 0 then (some (domainerrors.NewErrNotFound "transaction" transaction.ID), db2)
    else (none, db2)

/-- `TransactionRepository.Delete`: `DELETE FROM transactions WHERE id = $1`. -/
def TransactionRepository.Delete (id : String) (db : DB) : Option Error × DB :=
  match db.statement with
  | (some e, db1) => (some (Error.driver e), db1)
  | (none, db1) =>
    let rows := (db1.transactions.filter (fun r => r.ID == id)).length
    let db2 := { db1 with transactions := db1.transactions.filter (fun r => !(r.ID == id)) }
    if rows = 0 then (some (domainerrors.NewErrNotFound "transaction" id), db2)
    else (none, db2)

/-- `NewTransactionRepository`. -/
def NewTransactionRepository : interfaces.TransactionRepository DB :=
  { Create := TransactionRepository.Create, GetByID := TransactionRepository.GetByID,
    Update := TransactionRepository.Update, Delete := TransactionRepository.Delete }

/-- Mapper `toRepoUser`. -/
def toRepoUser (user : entity.User) : repoEntity.User :=
  { ID := user.ID, Name := user.Name, Email := user.Email, CreatedAt := user.CreatedAt,
    UpdatedAt := user.UpdatedAt }

/-- Mapper `toDomainUser`. -/
def toDomainUser (dbUser : repoEntity.User) : entity.User :=
  { ID := dbUser.ID, Name := dbUser.Name, Email := dbUser.Email,
    CreatedAt := dbUser.CreatedAt, UpdatedAt := dbUser.UpdatedAt }

/-- `UserRepository.Create`: `INSERT INTO users ...`; on success the timestamps are written
back to the entity. -/
def UserRepository.Create (user : entity.User) (db : DB) : Option Error × entity.User × DB :=
  let dbUser := toRepoUser user
  let now := db.clock
  let dbUser := { dbUser with CreatedAt := now, UpdatedAt := now }
  match db.statement with
  | (some e, db1) => (some (Error.driver e), user, db1)
  | (none, db1) =>
    (none, { user with CreatedAt := dbUser.CreatedAt, UpdatedAt := dbUser.UpdatedAt },
      { db1 with users := db1.users ++ [dbUser] })

/-- `UserRepository.GetByID`: `SELECT ... FROM users WHERE id = $1`. -/
def UserRepository.GetByID (id : String) (db : DB) : Option entity.User × Option Error × DB :=
  match db.statement with
  | (some e, db1) => (none, some (Error.driver e), db1)
  | (none, db1) =>
    match db1.users.find? (fun r => r.ID == id) with
    | none => (none, none, db1)
    | some row => (some (toDomainUser row), none, db1)

/-- `UserRepository.GetByEmail`: `SELECT ... FROM users WHERE email = $1`. -/
def UserRepository.GetByEmail (email : String) (db : DB) :
    Option entity.User × Option Error × DB :=
  match db.statement with
  | (some e, db1) => (none, some (Error.driver e), db1)
  | (none, db1) =>
    match db1.users.find? (fun r => r.Email == email) with
    | none => (none, none, db1)
    | some row => (some (toDomainUser row), none, db1)

/-- `UserRepository.Update`: `UPDATE users SET name = $2, email = $3, updated_at = $4
WHERE id = $1`; on success the new timestamp is written back to the entity. -/
def UserRepository.Update (user : entity.User) (db : DB) : Option Error × entity.User × DB :=
  let dbUser := { toRepoUser user with UpdatedAt := db.clock }
  match db.statement with
  | (some e, db1) => (some (Error.driver e), user, db1)
  | (none, db1) =>
    let rows := (db1.users.filter (fun r => r.ID == dbUser.ID)).length
    let db2 := { db1 with users := db1.users.map (fun r =>
      if r.ID == dbUser.ID then
        { r with Name := dbUser.Name, Email := dbUser.Email, UpdatedAt := dbUser.UpdatedAt }
      else r) }
    if rows = 0 then (some (domainerrors.NewErrNotFound "user" user.ID), user, db2)
    else (none, { user with UpdatedAt := dbUser.UpdatedAt }, db2)

/-- `UserRepository.Delete`: `DELETE FROM users WHERE id = $1`. -/
def UserRepository.Delete (id : String) (db : DB) : Option Error × DB :=
  match db.statement with
  | (some e, db1) => (some (Error.driver e), db1)
  | (none, db1) =>
    let rows := (db1.users.filter (fun r => r.ID == id)).length
    let db2 := { db1 with users := db1.users.filter (fun r => !(r.ID == id)) }
    if rows = 0 then (some (domainerrors.NewErrNotFound "user" id), db2) else (none, db2)

/-- `NewUserRepository`. -/
def NewUserRepository : interfaces.UserRepository DB :=
  { Create := UserRepository.Create, GetByID := UserRepository.GetByID,
    GetByEmail := UserRepository.GetByEmail, Update := UserRepository.Update,
    Delete := UserRepository.Delete }

/-- The account stored under an id, as `SELECT id, user_id, name, type, balance, currency
FROM accounts WHERE id = $1` shows it. -/
def storedAccount (db : DB) (id : String) : Option entity.Account :=
  (db.accounts.find? (fun r => r.ID == id)).map
    (fun row => toDomainAccount { row with CreatedAt := 0, UpdatedAt := 0 })

/-- The balance column of the account row with the given id, as a reader sees it. -/
def storedBalance (db : DB) (id : String) : Option Float64 :=
  (storedAccount db id).map (fun a => a.Balance)

end postgres

namespace interfaces

/-- Go interface `interfaces.TransactionService`, over a store `σ` (the two read-only
methods, which no modelled handler calls, are left out). -/
structure TransactionService (σ : Type) where
  CreateTransaction : String → Float64 → String → String → String → constant.TransactionType →
    Time → σ → Option entity.Transaction × Option Error × σ
  UpdateTransaction : String → Float64 → String → String → String → constant.TransactionType →
    Time → σ → Option entity.Transaction × Option Error × σ
  DeleteTransaction : String → σ → Option Error × σ

/-- Go interface `interfaces.AccountService`, over a store `σ` (the two read-only methods,
which no modelled handler calls, are left out). -/
structure AccountService (σ : Type) where
  CreateAccount : String → String → constant.AccountType → String → σ →
    Option entity.Account × Option Error × σ
  UpdateAccount : String → String → constant.AccountType → String → σ →
    Option entity.Account × Option Error × σ
  DeleteAccount : String → σ → Option Error × σ

end interfaces

namespace service

/-- `NewTransactionService`: the service over two repositories, as the handlers see it. The
id and the time that `CreateTransaction` draws are fixed here. -/
def NewTransactionService {σ : Type} (transactionRepo : interfaces.TransactionRepository σ)
    (accountRepo : interfaces.AccountRepository σ) (newID : String) (now : Time) :
    interfaces.TransactionService σ :=
  { CreateTransaction := fun accountID amount currency description category transactionType
        date s =>
      ((CreateTransaction transactionRepo accountRepo newID now accountID amount currency
          description category transactionType date s).value,
        (CreateTransaction transactionRepo accountRepo newID now accountID amount currency
          description category transactionType date s).err,
        (CreateTransaction transactionRepo accountRepo newID now accountID amount currency
          description category transactionType date s).state),
    UpdateTransaction := fun id amount currency description category transactionType date s =>
      ((UpdateTransaction transactionRepo id amount currency description category
          transactionType date s).value,
        (UpdateTransaction transactionRepo id amount currency description category
          transactionType date s).err,
        (UpdateTransaction transactionRepo id amount currency description category
          transactionType date s).state),
    DeleteTransaction := fun id s =>
      ((DeleteTransaction transactionRepo id s).err, (DeleteTransaction transactionRepo id s).state) }

/-- `NewAccountService`: the service over two repositories, as the handlers see it. -/
def NewAccountService {σ : Type} (accountRepo : interfaces.AccountRepository σ)
    (userRepo : interfaces.UserRepository σ) (newID : String) : interfaces.AccountService σ :=
  { CreateAccount := fun userID name accountType currency s =>
      ((CreateAccount accountRepo userRepo newID userID name accountType currency s).value,
        (CreateAccount accountRepo userRepo newID userID name accountType currency s).err,
        (CreateAccount accountRepo userRepo newID userID name accountType currency s).state),
    UpdateAccount := fun id name accountType currency s =>
      ((UpdateAccount accountRepo id name accountType currency s).value,
        (UpdateAccount accountRepo id name accountType currency s).err,
        (UpdateAccount accountRepo id name accountType currency s).state),
    DeleteAccount := fun id s =>
      ((DeleteAccount accountRepo id s).err, (DeleteAccount accountRepo id s).state) }

end service

namespace postgres

/-- The operations of `database/sql` that `TxManager.WithTx` uses: `db.BeginTx`, `tx.Commit`
and `tx.Rollback`, over a connection state `σ`. -/
structure SqlTx (σ : Type) where
  BeginTx : σ → Option Error × σ
  Commit : σ → Option Error × σ
  Rollback : σ → Option Error × σ

/-- A call on the transaction handle issued by `WithTx`. -/
inductive TxCall where
  | BeginTx
  | Commit
  | Rollback
deriving DecidableEq, Repr

/-- `TxManager.WithTx`: the error returned, the connection state afterwards and the calls
issued on the transaction handle, in order. `fn` runs on the state left by `BeginTx`. -/
def TxManager.WithTx {σ : Type} (db : SqlTx σ) (fn : σ → Option Error × σ) (s : σ) :
    Option Error × σ × List TxCall :=
  match db.BeginTx s with
  | (some err, s1) => (some (Error.wrapped "beginning transaction" err), s1, [TxCall.BeginTx])
  | (none, s1) =>
    match fn s1 with
    | (some err, s2) =>
      match db.Rollback s2 with
      | (some rbErr, s3) => (some (Error.rollback rbErr err), s3, [TxCall.BeginTx, TxCall.Rollback])
      | (none, s3) => (some err, s3, [TxCall.BeginTx, TxCall.Rollback])
    | (none, s2) =>
      match db.Commit s2 with
      | (some err, s3) =>
        (some (Error.wrapped "committing transaction" err), s3,
          [TxCall.BeginTx, TxCall.Commit])
      | (none, s3) => (none, s3, [TxCall.BeginTx, TxCall.Commit])

end postgres

namespace common

/-- Go `common.ValidationError`. -/
structure ValidationError where
  Field : String
  Message : String
deriving DecidableEq, Repr

/-- Go `common.ProblemDetail`. -/
structure ProblemDetail where
  Type_ : String
  Title : String
  Status : Nat
  Detail : String
  Instance : String
deriving DecidableEq, Repr

def TypeValidationError : String := "https://api.accounting.app/problems/validation-error"
def TypeNotFound : String := "https://api.accounting.app/problems/not-found"
def TypeInternalError : String := "https://api.accounting.app/problems/internal-error"
def TypeMethodNotAllowed : String := "https://api.accounting.app/problems/method-not-allowed"
def TypeBadRequest : String := "https://api.accounting.app/problems/bad-request"

def NewValidationProblem (detail inst : String) : ProblemDetail :=
  { Type_ := TypeValidationError, Title := "Validation Error", Status := 400, Detail := detail,
    Instance := inst }

def NewNotFoundProblem (detail inst : String) : ProblemDetail :=
  { Type_ := TypeNotFound, Title := "Not Found", Status := 404, Detail := detail,
    Instance := inst }

def NewInternalErrorProblem (inst : String) : ProblemDetail :=
  { Type_ := TypeInternalError, Title := "Internal Server Error", Status := 500,
    Detail := "An unexpected error occurred. Please try again later.", Instance := inst }

def NewMethodNotAllowedProblem (inst : String) : ProblemDetail :=
  { Type_ := TypeMethodNotAllowed, Title := "Method Not Allowed", Status := 405,
    Detail := "The HTTP method is not allowed for this endpoint.", Instance := inst }

def NewBadRequestProblem (detail inst : String) : ProblemDetail :=
  { Type_ := TypeBadRequest, Title := "Bad Request", Status := 400, Detail := detail,
    Instance := inst }

/-- Go `common.ValidationProblem` (the embedded `ProblemDetail` and the field errors). -/
structure ValidationProblem where
  ProblemDetail : ProblemDetail
  Errors : List ValidationError
deriving DecidableEq, Repr

def NewValidationProblemWithErrors (inst : String) (errors : List ValidationError) :
    ValidationProblem :=
  let detail :=
    match errors with
    | [e] => "Validation failed: " ++ e.Message
    | _ => "One or more validation errors occurred."
  { ProblemDetail :=
      { Type_ := TypeValidationError, Title := "Validation Error", Status := 400,
        Detail := detail, Instance := inst },
    Errors := errors }

/-- `common.ValidateRequired` (`strings.TrimSpace` as `String.trim`). -/
def ValidateRequired (value fieldName : String) : Option ValidationError :=
  if value.trim = "" then some { Field := fieldName, Message := fieldName ++ " is required" }
  else none

/-- `common.ValidateUUID`; `uuidParse v` tells whether `uuid.Parse(v)` of the external
package `github.com/google/uuid` succeeds. -/
def ValidateUUID (uuidParse : String → Bool) (value fieldName : String) :
    Option ValidationError :=
  if value = "" then some { Field := fieldName, Message := fieldName ++ " is required" }
  else if !uuidParse value then
    some { Field := fieldName, Message := fieldName ++ " must be a valid UUID" }
  else none

/-- `common.ValidateCurrency`: `len` counts bytes, the loop ranges over the characters. -/
def ValidateCurrency (currency fieldName : String) : Option ValidationError :=
  if currency = "" then some { Field := fieldName, Message := fieldName ++ " is required" }
  else if currency.utf8ByteSize ≠ 3 then
    some { Field := fieldName,
           Message := fieldName ++ " must be a 3-character ISO currency code" }
  else if currency.toList.any (fun c => decide (c < 'A') || decide (c > 'Z')) then
    some { Field := fieldName, Message := fieldName ++ " must contain only uppercase letters" }
  else none

/-- `common.ValidatePositive`. -/
def ValidatePositive (value : Float64) (fieldName : String) : Option ValidationError :=
  if value ≤ 0 then
    some { Field := fieldName, Message := fieldName ++ " must be greater than zero" }
  else none

/-- `common.ValidateEnum`. -/
def ValidateEnum (value : String) (allowed : List String) (fieldName : String) :
    Option ValidationError :=
  if value = "" then some { Field := fieldName, Message := fieldName ++ " is required" }
  else if allowed.any (fun a => value == a) then none
  else
    some { Field := fieldName,
           Message := fieldName ++ " must be one of: " ++ ", ".intercalate allowed }

/-- `common.CollectErrors`: the non-nil validation errors, in order. -/
def CollectErrors (errors : List (Option ValidationError)) : List ValidationError :=
  errors.filterMap id

end common

namespace handler

open common

/-- Go `transaction.CreateTransactionRequest` (the decoded JSON body). -/
structure CreateTransactionRequest where
  AccountID : String
  Amount : Float64
  Currency : String
  Description : String
  Category : String
  Type_ : constant.TransactionType
  Date : Option Time
deriving DecidableEq, Repr

/-- Go `transaction.UpdateTransactionRequest` (the decoded JSON body). -/
structure UpdateTransactionRequest where
  Amount : Float64
  Currency : String
  Description : String
  Category : String
  Type_ : constant.TransactionType
  Date : Option Time
deriving DecidableEq, Repr

/-- Go `transaction.TransactionResponse`. -/
structure TransactionResponse where
  ID : String
  AccountID : String
  Amount : Float64
  Currency : String
  Description : String
  Category : String
  Type_ : constant.TransactionType
  Date : Time
deriving DecidableEq, Repr

def toTransactionResponse (transaction : entity.Transaction) : TransactionResponse :=
  { ID := transaction.ID, AccountID := transaction.AccountID, Amount := transaction.Amount,
    Currency := transaction.Currency, Description := transaction.Description,
    Category := transaction.Category, Type_ := transaction.Type_, Date := transaction.Date }

/-- What a handler reads of `*http.Request`. `Body` is `none` for a nil body, `some none` for
a body that `json.Decode` rejects and `some (some req)` for a body that decodes to `req`. -/
structure Request (β : Type) where
  Method : String
  Path : String
  RequestURI : String
  Body : Option (Option β)

/-- What a handler writes to the `http.ResponseWriter`. -/
inductive ResponseBody where
  | empty
  | problem (p : ProblemDetail)
  | validationProblem (p : ValidationProblem)
  | transaction (t : TransactionResponse)
deriving DecidableEq, Repr

/-- The status code and the body written. -/
structure Response where
  Status : Nat
  Body : ResponseBody
deriving DecidableEq, Repr

/-- `common.WriteProblem` on a `*ProblemDetail`. -/
def WriteProblem (problem : ProblemDetail) : Response :=
  { Status := problem.Status, Body := ResponseBody.problem problem }

/-- `common.WriteProblem` on a `*ValidationProblem`. -/
def WriteValidationProblem (problem : ValidationProblem) : Response :=
  { Status := problem.ProblemDetail.Status, Body := ResponseBody.validationProblem problem }

/-- The handler dereferences a nil entity and panics: no status is written by the handler
(status `0` stands for that). -/
def nilDereference : Response := { Status := 0, Body := ResponseBody.empty }

/-- `extractID`: the path without the given leading part, up to the first `/`. -/
def extractID (path pre : String) : String :=
  let path := if path.startsWith pre then path.drop pre.length else path
  match path.splitOn "/" with
  | part :: _ => part
  | [] => ""

/-- The error branch shared by the create and update transaction handlers. -/
def transactionErrorResponse (err : Error) (requestURI : String) : Response :=
  if err.asNotFound then WriteProblem (NewNotFoundProblem err.errorText requestURI)
  else if err.asInvalidInput then WriteProblem (NewValidationProblem err.errorText requestURI)
  else WriteProblem (NewInternalErrorProblem requestURI)

/-- `CreateTransactionHandler.Handle`. -/
def CreateTransactionHandler.Handle {σ : Type} (uuidParse : String → Bool)
    (svc : interfaces.TransactionService σ) (r : Request CreateTransactionRequest) (s : σ) :
    Response × σ :=
  if r.Method ≠ "POST" then (WriteProblem (NewMethodNotAllowedProblem r.RequestURI), s)
  else
    match r.Body with
    | none => (WriteProblem (NewBadRequestProblem "invalid request body" r.RequestURI), s)
    | some none => (WriteProblem (NewBadRequestProblem "invalid request body" r.RequestURI), s)
    | some (some req) =>
      let validationErrors := CollectErrors
        [ValidateUUID uuidParse req.AccountID "account_id",
         ValidatePositive req.Amount "amount",
         ValidateCurrency req.Currency "currency",
         ValidateEnum req.Type_ ["INCOME", "EXPENSE", "TRANSFER"] "type"]
      if validationErrors.length > 0 then
        (WriteValidationProblem (NewValidationProblemWithErrors r.RequestURI validationErrors),
          s)
      else
        let date : Time := req.Date.getD 0
        match svc.CreateTransaction req.AccountID req.Amount req.Currency req.Description
            req.Category req.Type_ date s with
        | (_, some err, s1) => (transactionErrorResponse err r.RequestURI, s1)
        | (some transaction, none, s1) =>
          ({ Status := 201, Body := ResponseBody.transaction (toTransactionResponse transaction) },
            s1)
        | (none, none, s1) => (nilDereference, s1)

/-- The optional-field validation of `UpdateTransactionHandler.Handle`. -/
def updateValidationErrors (req : UpdateTransactionRequest) : List ValidationError :=
  CollectErrors
    [if req.Amount ≠ 0 then ValidatePositive req.Amount "amount" else none,
     if req.Currency ≠ "" then ValidateCurrency req.Currency "currency" else none,
     if req.Type_ ≠ "" then ValidateEnum req.Type_ ["INCOME", "EXPENSE", "TRANSFER"] "type"
     else none]

/-- `UpdateTransactionHandler.Handle`. -/
def UpdateTransactionHandler.Handle {σ : Type} (uuidParse : String → Bool)
    (svc : interfaces.TransactionService σ) (r : Request UpdateTransactionRequest) (s : σ) :
    Response × σ :=
  if r.Method ≠ "PUT" then (WriteProblem (NewMethodNotAllowedProblem r.RequestURI), s)
  else
    let id := extractID r.Path "/api/v1/transactions/"
    if id = "" then
      (WriteValidationProblem (NewValidationProblemWithErrors r.RequestURI
        [{ Field := "id", Message := "transaction ID is required" }]), s)
    else
      match ValidateUUID uuidParse id "id" with
      | some validationErr =>
        (WriteValidationProblem (NewValidationProblemWithErrors r.RequestURI [validationErr]),
          s)
      | none =>
        match r.Body with
        | none => (WriteProblem (NewBadRequestProblem "invalid request body" r.RequestURI), s)
        | some none =>
          (WriteProblem (NewBadRequestProblem "invalid request body" r.RequestURI), s)
        | some (some req) =>
          let validationErrors := updateValidationErrors req
          if validationErrors.length > 0 then
            (WriteValidationProblem
              (NewValidationProblemWithErrors r.RequestURI validationErrors), s)
          else
            let date : Time := req.Date.getD 0
            match svc.UpdateTransaction id req.Amount req.Currency req.Description
                req.Category req.Type_ date s with
            | (_, some err, s1) => (transactionErrorResponse err r.RequestURI, s1)
            | (some transaction, none, s1) =>
              ({ Status := 200,
                 Body := ResponseBody.transaction (toTransactionResponse transaction) }, s1)
            | (none, none, s1) => (nilDereference, s1)

/-- `DeleteTransactionHandler.Handle`. -/
def DeleteTransactionHandler.Handle {σ : Type} (uuidParse : String → Bool)
    (svc : interfaces.TransactionService σ) (r : Request Unit) (s : σ) : Response × σ :=
  if r.Method ≠ "DELETE" then (WriteProblem (NewMethodNotAllowedProblem r.RequestURI), s)
  else
    let id := extractID r.Path "/api/v1/transactions/"
    if id = "" then
      (WriteValidationProblem (NewValidationProblemWithErrors r.RequestURI
        [{ Field := "id", Message := "transaction ID is required" }]), s)
    else
      match ValidateUUID uuidParse id "id" with
      | some validationErr =>
        (WriteValidationProblem (NewValidationProblemWithErrors r.RequestURI [validationErr]),
          s)
      | none =>
        match svc.DeleteTransaction id s with
        | (some _, s1) => (WriteProblem (NewInternalErrorProblem r.RequestURI), s1)
        | (none, s1) => ({ Status := 204, Body := ResponseBody.empty }, s1)

/-- `DeleteAccountHandler.Handle`. -/
def DeleteAccountHandler.Handle {σ : Type} (uuidParse : String → Bool)
    (svc : interfaces.AccountService σ) (r : Request Unit) (s : σ) : Response × σ :=
  if r.Method ≠ "DELETE" then (WriteProblem (NewMethodNotAllowedProblem r.RequestURI), s)
  else
    let id := extractID r.Path "/api/v1/accounts/"
    if id = "" then
      (WriteValidationProblem (NewValidationProblemWithErrors r.RequestURI
        (CollectErrors [ValidateRequired id "account_id"])), s)
    else
      match ValidateUUID uuidParse id "account_id" with
      | some err =>
        (WriteValidationProblem
          (NewValidationProblemWithErrors r.RequestURI (CollectErrors [some err])), s)
      | none =>
        match svc.DeleteAccount id s with
        | (some _, s1) => (WriteProblem (NewInternalErrorProblem r.RequestURI), s1)
        | (none, s1) => ({ Status := 204, Body := ResponseBody.empty }, s1)

end handler

namespace domainerrors

def NewErrDuplicateEmail (email : String) : Error := Error.ErrDuplicateEmail email

end domainerrors

namespace service

/-- The user that `CreateUser` builds: a fresh id, the name and the email; the timestamps
keep their zero value until the repository sets them. -/
def newUser (newID name email : String) : entity.User :=
  { ID := newID, Name := name, Email := email, CreatedAt := 0, UpdatedAt := 0 }

/-- `UserService.CreateUser`; the user returned is the one the repository's `Create` leaves
behind the pointer. -/
def CreateUser {σ : Type} (repo : interfaces.UserRepository σ) (newID : String)
    (name email : String) (s : σ) : Outcome σ entity.User :=
  if email = "" then
    ⟨none, some (domainerrors.NewErrInvalidInput "email" "email is required"), s, []⟩
  else if name = "" then
    ⟨none, some (domainerrors.NewErrInvalidInput "name" "name is required"), s, []⟩
  else
    match repo.GetByEmail email s with
    | (_, some err, s1) =>
      ⟨none, some (Error.wrapped "checking existing user" err), s1,
        [Call.userGetByEmail email]⟩
    | (some _, none, s1) =>
      ⟨none, some (domainerrors.NewErrDuplicateEmail email), s1, [Call.userGetByEmail email]⟩
    | (none, none, s1) =>
      let user := newUser newID name email
      match repo.Create user s1 with
      | (some err, _, s2) =>
        ⟨none, some (Error.wrapped "creating user" err), s2,
          [Call.userGetByEmail email, Call.userCreate user]⟩
      | (none, stored, s2) =>
        ⟨some stored, none, s2, [Call.userGetByEmail email, Call.userCreate user]⟩

end service

namespace validator

/-- The character class `[0-9a-fA-F]`. -/
def hexDigit (c : Char) : Bool :=
  (decide ('0' ≤ c) && decide (c ≤ '9')) || (decide ('a' ≤ c) && decide (c ≤ 'f')) ||
    (decide ('A' ≤ c) && decide (c ≤ 'F'))

/-- The literal `-`. -/
def hyphen (c : Char) : Bool := c == '-'

/-- One element of an anchored pattern: a character class repeated exactly `count` times
(`[0-9a-fA-F]{8}`; a literal is a class repeated once). -/
structure Item where
  accepts : Char → Bool
  count : Nat

/-- Consume exactly `n` characters of the class from the front of the input; the rest of the
input, if that succeeds. -/
def matchRepeat (accepts : Char → Bool) : Nat → List Char → Option (List Char)
  | 0, cs => some cs
  | _ + 1, [] => none
  | n + 1, c :: cs => if accepts c then matchRepeat accepts n cs else none

/-- Match `^item₁item₂…$`: the items in order, from the start of the text to its end. -/
def matchItems : List Item → List Char → Bool
  | [], cs => cs.isEmpty
  | item :: items, cs =>
    match matchRepeat item.accepts item.count cs with
    | some rest => matchItems items rest
    | none => false

/-- The pattern
`^[0-9a-fA-F]{8}-[0-9a-fA-F]{4}-[0-9a-fA-F]{4}-[0-9a-fA-F]{4}-[0-9a-fA-F]{12}$`. -/
def uuidRegex : List Item :=
  [⟨hexDigit, 8⟩, ⟨hyphen, 1⟩, ⟨hexDigit, 4⟩, ⟨hyphen, 1⟩, ⟨hexDigit, 4⟩, ⟨hyphen, 1⟩,
   ⟨hexDigit, 4⟩, ⟨hyphen, 1⟩, ⟨hexDigit, 12⟩]

/-- `regexp.MatchString` for an anchored pattern of repeated classes. -/
def MatchString (re : List Item) (s : String) : Bool := matchItems re s.toList

/-- `validator.ValidateUUID`. -/
def ValidateUUID (value : String) : Bool := MatchString uuidRegex value

end validator

namespace context

/-- A context key. Go compares keys as interface values: two keys are equal only when both
their dynamic types and their values are. -/
structure Key where
  typeName : String
  value : String
deriving DecidableEq, Repr

/-- The values that the program stores in a context: a request id (a string) and an open
`*sql.Tx` (a handle). -/
inductive Val where
  | str (s : String)
  | tx (handle : Nat)
deriving DecidableEq, Repr

/-- Go `context.Context`, as its chain of `WithValue` bindings, innermost first. -/
abbrev Context := List (Key × Val)

/-- Go `context.Background()`. -/
def Background : Context := []

/-- Go `context.WithValue`. -/
def WithValue (ctx : Context) (key : Key) (val : Val) : Context := (key, val) :: ctx

/-- Go `ctx.Value(key)`: the innermost binding of an equal key; `none` is nil. -/
def Value (ctx : Context) (key : Key) : Option Val :=
  (ctx.find? (fun b => b.1 == key)).map (fun b => b.2)

/-- How `fmt.Sprintf("%v", v)` prints a stored value. -/
def Val.format : Val → String
  | .str s => s
  | .tx handle => "tx#" ++ toString handle

end context

namespace middleware

/-- `RequestIDKey ContextKey = "request-id"`, of type `middleware.ContextKey`. -/
def RequestIDKey : context.Key := { typeName := "middleware.ContextKey", value := "request-id" }

/-- The context that the `RequestID` middleware hands to the next handler: the request id is
the `X-Request-ID` header when it is not empty and a fresh UUID string otherwise. -/
def RequestID (headerID newID : String) (ctx : context.Context) : context.Context :=
  let requestID := if headerID = "" then newID else headerID
  context.WithValue ctx RequestIDKey (context.Val.str requestID)

/-- `middleware.GetRequestID`. -/
def GetRequestID (ctx : context.Context) : String :=
  match context.Value ctx RequestIDKey with
  | some (context.Val.str id) => id
  | _ => ""

end middleware

namespace logger

/-- A `Logger`, as the attributes its `slog.Logger` carries (`With` appends a key and a
value); the output handler and level play no part here. -/
structure Logger where
  attrs : List (String × String)
deriving DecidableEq, Repr

/-- The key that `WithContext` looks up: `requestIDKey contextKey = "request-id"`, where
`contextKey` is the string type declared inside `WithContext`. -/
def requestIDKey : context.Key :=
  { typeName := "logger.WithContext.contextKey", value := "request-id" }

/-- `Logger.WithContext`. -/
def Logger.WithContext (l : Logger) (ctx : context.Context) : Logger :=
  match context.Value ctx requestIDKey with
  | some reqID => { attrs := l.attrs ++ [("request_id", reqID.format)] }
  | none => l

end logger

namespace postgres

/-- The context key `txKey{}`. -/
def txKey : context.Key := { typeName := "postgres.txKey", value := "" }

/-- `GetTxFromContext`: the `*sql.Tx` stored under `txKey{}`, nil when there is none. -/
def GetTxFromContext (ctx : context.Context) : Option Nat :=
  match context.Value ctx txKey with
  | some (context.Val.tx handle) => some handle
  | _ => none

/-- What a statement is sent to (Go interface `Executor`): the connection pool `*sql.DB` or
an open transaction `*sql.Tx`. -/
inductive Executor where
  | db
  | tx (handle : Nat)
deriving DecidableEq, Repr

/-- `GetExecutor`. -/
def GetExecutor (ctx : context.Context) : Executor :=
  match GetTxFromContext ctx with
  | some tx => Executor.tx tx
  | none => Executor.db

/-- A database with at most one open transaction: `committed` is what statements sent to the
pool read and write, `pending` is the working state of the open transaction, which
statements sent to the transaction read and write. -/
structure TxDB where
  committed : DB
  pending : Option DB
deriving DecidableEq, Repr

/-- `ExecContext` on an executor: the statement runs against the pool or against the open
transaction. -/
def TxDB.ExecContext (d : TxDB) (e : Executor) (stmt : DB → Option Error × DB) :
    Option Error × TxDB :=
  match e with
  | .db => ((stmt d.committed).1, { d with committed := (stmt d.committed).2 })
  | .tx _ =>
    match d.pending with
    | some w => ((stmt w).1, { d with pending := some (stmt w).2 })
    | none =>
      (some (Error.driver "sql: transaction has already been committed or rolled back"), d)

/-- `BeginTx`, `Commit` and `Rollback` of the database: a transaction starts from the
committed state, a commit publishes its working state, a rollback drops it. -/
def sqlTxDB : SqlTx TxDB :=
  { BeginTx := fun d => (none, { d with pending := some d.committed }),
    Commit := fun d =>
      match d.pending with
      | some w => (none, { committed := w, pending := none })
      | none =>
        (some (Error.driver "sql: transaction has already been committed or rolled back"), d),
    Rollback := fun d => (none, { d with pending := none }) }

/-- `TransactionRepository.Create` with its context: the statement is sent with
`r.db.ExecContext(ctx, ...)`, that is to the pool; the context is only passed along. -/
def TransactionRepository.CreateCtx (_ctx : context.Context)
    (transaction : entity.Transaction) (d : TxDB) : Option Error × TxDB :=
  d.ExecContext Executor.db (TransactionRepository.Create transaction)

/-- `AccountRepository.Update` with its context: the statement is sent with
`r.db.ExecContext(ctx, ...)`, that is to the pool; the context is only passed along. -/
def AccountRepository.UpdateCtx (_ctx : context.Context) (account : entity.Account)
    (d : TxDB) : Option Error × TxDB :=
  d.ExecContext Executor.db (AccountRepository.Update account)

end postgres

/-! ## Concrete stores and requests used to evaluate the code -/

namespace fixture

open postgres service

/-- An account row holding 1000.00 USD. -/
def account1000 : repoEntity.Account :=
  { ID := "acc-1", UserID := "user-1", Name := "Main", Type_ := "CHECKING", Balance := 1000,
    Currency := "USD", CreatedAt := 1, UpdatedAt := 1 }

/-- The domain view of `account1000`. -/
def domainAccount1000 : entity.Account :=
  { ID := "acc-1", UserID := "user-1", Name := "Main", Type_ := "CHECKING", Balance := 1000,
    Currency := "USD" }

/-- A healthy database with one account at 1000.00 and an empty ledger. -/
def db1000 : DB := { accounts := [account1000], transactions := [], clock := 10, faults := [] }

/-- The same database, whose third statement fails: the lookup and the ledger insert of a
`CreateTransaction` call run, the balance update hits the fault. -/
def dbFaultAtUpdate : DB :=
  { accounts := [account1000], transactions := [], clock := 10,
    faults := [none, none, some "connection reset"] }

def expense150 : CreateRequest :=
  { newID := "tx-1", now := 10, accountID := "acc-1", amount := 150, currency := "USD",
    description := "Gas", category := "Transport", transactionType := "EXPENSE", date := 0 }

def income250 : CreateRequest :=
  { newID := "tx-2", now := 11, accountID := "acc-1", amount := 250, currency := "USD",
    description := "Salary", category := "Income", transactionType := "INCOME", date := 0 }

def expense100 : CreateRequest :=
  { newID := "tx-3", now := 12, accountID := "acc-1", amount := 100, currency := "USD",
    description := "Food", category := "Groceries", transactionType := "EXPENSE", date := 0 }

/-- A healthy database with one account at 0.00 and an empty ledger. -/
def dbZero : DB :=
  { accounts := [{ ID := "acc-1", UserID := "user-1", Name := "Main", Type_ := "CHECKING",
                   Balance := 0, Currency := "USD", CreatedAt := 1, UpdatedAt := 1 }],
    transactions := [], clock := 10, faults := [] }

def incomeOneA : CreateRequest :=
  { newID := "tx-a", now := 10, accountID := "acc-1", amount := 1, currency := "USD",
    description := "", category := "", transactionType := "INCOME", date := 0 }

def incomeOneB : CreateRequest :=
  { newID := "tx-b", now := 10, accountID := "acc-1", amount := 1, currency := "USD",
    description := "", category := "", transactionType := "INCOME", date := 0 }

/-- An account at 1100.00 whose ledger holds one income entry of 100.00 (the account was at
1000.00 before that entry was appended). -/
def dbWithIncome : DB :=
  { accounts := [{ ID := "acc-1", UserID := "user-1", Name := "Main", Type_ := "CHECKING",
                   Balance := 1100, Currency := "USD", CreatedAt := 1, UpdatedAt := 5 }],
    transactions := [{ ID := "tx-1", AccountID := "acc-1", Amount := 100, Currency := "USD",
                       Description := "Salary", Date := 5, Type_ := "INCOME",
                       Category := "Income", CreatedAt := 5, UpdatedAt := 5 }],
    clock := 10, faults := [] }

/-- A healthy database with one user, one account at 1000.00 and an empty ledger. -/
def dbWithUser : DB :=
  { accounts := [account1000], transactions := [], clock := 10, faults := [],
    users := [{ ID := "user-1", Name := "Test User", Email := "test@example.com",
                CreatedAt := 1, UpdatedAt := 1 }] }

/-- A connection whose `BeginTx`, `Commit` and `Rollback` succeed or fail as scripted: each
operation consumes the head of the script, `some msg` being a failure. -/
def scriptedTx : SqlTx (List (Option String)) :=
  { BeginTx := fun s => ((s.headD none).map Error.driver, s.tail),
    Commit := fun s => ((s.headD none).map Error.driver, s.tail),
    Rollback := fun s => ((s.headD none).map Error.driver, s.tail) }

/-- The canonical textual form of a UUID, which `uuid.Parse` accepts: 36 characters, hyphens
at positions 8, 13, 18 and 23, hexadecimal digits elsewhere. -/
def canonicalUUID (v : String) : Bool :=
  v.length == 36 &&
    v.toList.enum.all (fun p =>
      if p.1 == 8 || p.1 == 13 || p.1 == 18 || p.1 == 23 then p.2 == '-'
      else p.2.isDigit || ('a' ≤ p.2 && p.2 ≤ 'f') || ('A' ≤ p.2 && p.2 ≤ 'F'))

/-- The database `dbWithUser` with a storage fault at its second statement. -/
def dbWithUserFaultAtSecond : DB :=
  { accounts := [account1000], transactions := [], clock := 10,
    faults := [none, some "database error"],
    users := [{ ID := "user-1", Name := "Test User", Email := "test@example.com",
                CreatedAt := 1, UpdatedAt := 1 }] }

/-- The database `db1000` with a storage fault at its second statement (the ledger insert of
a `CreateTransaction` call). -/
def dbFaultAtInsert : DB :=
  { accounts := [account1000], transactions := [], clock := 10,
    faults := [none, some "insert failed"] }

/-- The domain view of an account holding 10^16 USD, a balance at which neighbouring
`float64` values are 2 apart. -/
def domainAccountLarge : entity.Account :=
  { ID := "acc-1", UserID := "user-1", Name := "Main", Type_ := "CHECKING",
    Balance := 10000000000000000, Currency := "USD" }

/-- A healthy database with one account at 10^16 and an empty ledger. -/
def dbLarge : DB :=
  { accounts := [{ ID := "acc-1", UserID := "user-1", Name := "Main", Type_ := "CHECKING",
                   Balance := 10000000000000000, Currency := "USD", CreatedAt := 1,
                   UpdatedAt := 1 }],
    transactions := [], clock := 10, faults := [] }

/-- An income request whose amount is NaN (Go `math.NaN()`). -/
def incomeNaN : CreateRequest :=
  { newID := "tx-1", now := 10, accountID := "acc-1", amount := Float64.nan,
    currency := "USD", description := "", category := "", transactionType := "INCOME",
    date := 0 }

/-- The expense entry of 150 that `expense150` inserts. -/
def entry150 : entity.Transaction :=
  { ID := "tx-1", AccountID := "acc-1", Amount := 150, Currency := "USD",
    Description := "Gas", Date := 10, Type_ := "EXPENSE", Category := "Transport" }

/-- The context that `WithTx` hands to its function: the open transaction, with handle 1,
stored under `txKey{}`. -/
def ctxWithTx : context.Context :=
  context.WithValue context.Background txKey (context.Val.tx 1)

/-- The database `db1000` right after `BeginTx`: the open transaction starts from the
committed state. -/
def txdb1000 : TxDB := { committed := db1000, pending := some db1000 }

end fixture

/-! ## Lemmas about the embedding -/

section Lemmas

open postgres service

/-- On `float64`, `a < b` excludes `b <= a`. -/
theorem Float64.not_le_of_lt (a b : Float64) (h : a < b) : ¬ b ≤ a := by
  cases a <;> cases b <;> simp_all [LT.lt, LE.le, Float64.lt, Float64.le]

/-- On `float64`, `a <= b` excludes `b < a`. -/
theorem Float64.not_lt_of_le (a b : Float64) (h : a ≤ b) : ¬ b < a := by
  cases a <;> cases b <;> simp_all [LT.lt, LE.le, Float64.lt, Float64.le]

/-- NaN is not below, equal to or above any value. -/
theorem Float64.nan_not_le (a : Float64) : ¬ Float64.nan ≤ a := by
  cases a <;> simp [LE.le, Float64.le]

/-- `CreateTransaction` past its validation and a successful account lookup. -/
theorem CreateTransaction_unfold_found {σ : Type} (tr : interfaces.TransactionRepository σ)
    (ar : interfaces.AccountRepository σ) (newID : String) (now : Time) (accountID : String)
    (amount : Float64) (currency description category : String) (transactionType : String)
    (date : Time) (s s1 : σ) (acc : entity.Account)
    (hid : accountID ≠ "") (hamt : ¬ amount ≤ 0) (hcur : currency ≠ "")
    (hget : ar.GetByID accountID s = (some acc, none, s1)) :
    CreateTransaction tr ar newID now accountID amount currency description category
        transactionType date s =
      match tr.Create (newTransaction newID now accountID amount currency description category
          transactionType date) s1 with
      | (some err, s2) =>
        ⟨none, some (Error.wrapped "creating transaction" err), s2,
          [Call.accountGetByID accountID, Call.transactionCreate
            (newTransaction newID now accountID amount currency description category
              transactionType date)]⟩
      | (none, s2) =>
        match ar.Update (applyBalance acc transactionType amount) s2 with
        | (some err, s3) =>
          ⟨none, some (Error.wrapped "updating account balance" err), s3,
            [Call.accountGetByID accountID, Call.transactionCreate
              (newTransaction newID now accountID amount currency description category
                transactionType date),
              Call.accountUpdate (applyBalance acc transactionType amount)]⟩
        | (none, s3) =>
          ⟨some (newTransaction newID now accountID amount currency description category
                transactionType date), none, s3,
            [Call.accountGetByID accountID, Call.transactionCreate
              (newTransaction newID now accountID amount currency description category
                transactionType date),
              Call.accountUpdate (applyBalance acc transactionType amount)]⟩ := by
  simp only [CreateTransaction, if_neg hid, if_neg hamt, if_neg hcur, hget]


/-- Three steps of the step-wise form from entry are the whole call. -/
theorem CreateRequest.step_three {σ : Type} (tr : interfaces.TransactionRepository σ)
    (ar : interfaces.AccountRepository σ) (r : CreateRequest) (s : σ) :
    r.step tr ar (r.step tr ar (r.step tr ar .entry s).1 (r.step tr ar .entry s).2).1
        (r.step tr ar (r.step tr ar .entry s).1 (r.step tr ar .entry s).2).2 =
      (.returned (r.run tr ar s).value (r.run tr ar s).err, (r.run tr ar s).state) := by
  unfold CreateRequest.run CreateTransaction
  by_cases hid : r.accountID = ""
  · simp [CreateRequest.step, hid]
  by_cases hamt : r.amount ≤ 0
  · simp [CreateRequest.step, hid, hamt]
  by_cases hcur : r.currency = ""
  · simp [CreateRequest.step, hid, hamt, hcur]
  rcases hg : ar.GetByID r.accountID s with ⟨oa, oe, s1⟩
  rcases oe with _ | e
  swap
  · simp [CreateRequest.step, hid, hamt, hcur, hg]
  rcases oa with _ | acc
  · simp [CreateRequest.step, hid, hamt, hcur, hg]
  rcases hc : tr.Create (newTransaction r.newID r.now r.accountID r.amount
    r.currency r.description r.category r.transactionType r.date) s1 with ⟨ce, s2⟩
  rcases ce with _ | e
  swap
  · simp [CreateRequest.step, hid, hamt, hcur, hg, hc]
  rcases hu : ar.Update (applyBalance acc r.transactionType r.amount) s2 with ⟨ue, s3⟩
  rcases ue with _ | e <;> simp [CreateRequest.step, hid, hamt, hcur, hg, hc, hu]


theorem DB.statement_accounts (db : DB) : db.statement.2.accounts = db.accounts := by
  unfold DB.statement
  cases db.faults <;> rfl

theorem DB.statement_transactions (db : DB) :
    db.statement.2.transactions = db.transactions := by
  unfold DB.statement
  cases db.faults <;> rfl

theorem DB.statement_clock (db : DB) : db.statement.2.clock = db.clock := by
  unfold DB.statement
  cases db.faults <;> rfl

/-- A lookup that returns without error leaves both tables alone and returns the first row
with the id, if any. -/
theorem AccountRepository.GetByID_spec (id : String) (db db1 : DB)
    (oa : Option entity.Account) (oe : Option Error)
    (h : AccountRepository.GetByID id db = (oa, oe, db1)) :
    db1.accounts = db.accounts ∧ db1.transactions = db.transactions ∧ db1.clock = db.clock ∧
    (oe = none → oa = (db.accounts.find? (fun r => r.ID == id)).map
        (fun row => toDomainAccount { row with CreatedAt := 0, UpdatedAt := 0 })) := by
  unfold AccountRepository.GetByID at h
  have ha := DB.statement_accounts db
  have ht := DB.statement_transactions db
  have hc := DB.statement_clock db
  rcases hs : db.statement with ⟨_ | e, d⟩
  · rw [hs] at h ha ht hc
    simp only at h ha ht hc
    rcases hf : d.accounts.find? (fun r => r.ID == id) with _ | row
    · rw [hf] at h
      simp only [Prod.mk.injEq] at h
      obtain ⟨rfl, rfl, rfl⟩ := h
      refine ⟨ha, ht, hc, fun _ => ?_⟩
      rw [← ha, hf]
      rfl
    · rw [hf] at h
      simp only [Prod.mk.injEq] at h
      obtain ⟨rfl, rfl, rfl⟩ := h
      refine ⟨ha, ht, hc, fun _ => ?_⟩
      rw [← ha, hf]
      rfl
  · rw [hs] at h ha ht hc
    simp only [Prod.mk.injEq] at h ha ht hc
    obtain ⟨rfl, rfl, rfl⟩ := h
    exact ⟨ha, ht, hc, fun h => by simp at h⟩

/-- An insert into the ledger never touches the accounts table. -/
theorem TransactionRepository.Create_accounts (t : entity.Transaction) (db : DB) :
    (TransactionRepository.Create t db).2.accounts = db.accounts := by
  unfold TransactionRepository.Create
  have ha := DB.statement_accounts db
  rcases hs : db.statement with ⟨_ | e, d⟩ <;> rw [hs] at ha <;> simpa using ha

/-- Rewriting the rows that carry an id, keeping the id, commutes with looking the id up. -/
theorem find_map_update (l : List repoEntity.Account) (id : String)
    (f : repoEntity.Account → repoEntity.Account) (hf : ∀ r, (f r).ID = r.ID) :
    (l.map (fun r => if r.ID == id then f r else r)).find? (fun r => r.ID == id) =
      (l.find? (fun r => r.ID == id)).map f := by
  induction l with
  | nil => rfl
  | cons x xs ih =>
    simp only [List.map_cons, List.find?_cons]
    by_cases hx : (x.ID == id) = true
    · have hfx : ((f x).ID == id) = true := by rw [hf]; exact hx
      rw [if_pos hx, hfx, hx]
      rfl
    · have hx2 : (x.ID == id) = false := by simpa using hx
      rw [if_neg hx, hx2]
      exact ih

/-- A non-zero number of rows with the id means the lookup finds one. -/
theorem find_of_filter_length (l : List repoEntity.Account) (id : String)
    (h : ¬ (l.filter (fun r => r.ID == id)).length = 0) :
    ∃ row, l.find? (fun r => r.ID == id) = some row := by
  rcases hf : l.find? (fun r => r.ID == id) with _ | row
  · exfalso
    apply h
    rw [List.find?_eq_none] at hf
    rw [List.length_eq_zero, List.filter_eq_nil_iff]
    exact hf
  · exact ⟨row, hf⟩

/-- After a successful `Update`, the account stored under the record's id is the record. -/
theorem AccountRepository.Update_storedAccount (a : entity.Account) (db : DB)
    (h : (AccountRepository.Update a db).1 = none) :
    storedAccount (AccountRepository.Update a db).2 a.ID = some a := by
  unfold AccountRepository.Update at h ⊢
  rcases hs : db.statement with ⟨_ | e, d⟩
  · simp only [hs, toRepoAccount] at h ⊢
    split_ifs at h ⊢ with h0
    obtain ⟨row, hrow⟩ := find_of_filter_length d.accounts a.ID h0
    have hrowid : row.ID = a.ID := by simpa using List.find?_some hrow
    simp only [storedAccount]
    rw [find_map_update d.accounts a.ID
      (fun r => { r with UserID := a.UserID, Name := a.Name, Type_ := a.Type_,
                         Balance := a.Balance, Currency := a.Currency,
                         UpdatedAt := db.clock }) (fun _ => rfl), hrow]
    simp only [Option.map_some', toDomainAccount, hrowid]
  · simp [hs] at h

/-- After a successful `Update`, the stored balance is the record's balance. -/
theorem AccountRepository.Update_storedBalance (a : entity.Account) (db : DB)
    (h : (AccountRepository.Update a db).1 = none) :
    storedBalance (AccountRepository.Update a db).2 a.ID = some a.Balance := by
  unfold storedBalance
  rw [AccountRepository.Update_storedAccount a db h]
  rfl

/-- The PostgreSQL repositories, run one call after the other, form a sequential store. -/
theorem postgres_sequentialStore :
    SequentialStore NewTransactionRepository NewAccountRepository storedAccount where
  getByID_reads := by
    intro id db oa db1 hg
    obtain ⟨ha, -, -, hfind⟩ := AccountRepository.GetByID_spec id db db1 oa none hg
    refine ⟨hfind rfl, ?_⟩
    funext i
    simp only [storedAccount, ha]
  create_keeps := by
    intro t db db1 hc
    have h := TransactionRepository.Create_accounts t db
    rw [show TransactionRepository.Create t db = (none, db1) from hc] at h
    funext i
    simp only [storedAccount]
    rw [h]
  update_stores := by
    intro a db db1 hu
    have h := AccountRepository.Update_storedAccount a db
      (by rw [show AccountRepository.Update a db = (none, db1) from hu])
    rw [show AccountRepository.Update a db = (none, db1) from hu] at h
    exact h
  view_id := by
    intro db id a hv
    unfold storedAccount at hv
    rcases hrow : db.accounts.find? (fun x => x.ID == id) with _ | row
    · rw [hrow] at hv
      simp at hv
    · rw [hrow] at hv
      simp only [Option.map_some', Option.some.injEq] at hv
      rw [← hv]
      simpa [toDomainAccount] using List.find?_some hrow

theorem applyBalance_ID (acc : entity.Account) (ty : String) (amount : Float64) :
    (applyBalance acc ty amount).ID = acc.ID := by
  unfold applyBalance
  split_ifs <;> rfl

theorem applyBalance_Balance (acc : entity.Account) (ty : String) (amount : Float64) :
    (applyBalance acc ty amount).Balance =
      (if ty = "INCOME" then acc.Balance + amount
        else if ty = "EXPENSE" then acc.Balance - amount else acc.Balance) := by
  unfold applyBalance constant.TransactionTypeIncome constant.TransactionTypeExpense
  split_ifs <;> rfl

/-- Over a sequential store, one append that returns without error leaves the account with
its balance adjusted held under the account id. -/
theorem CreateRequest.run_view {σ : Type} (tr : interfaces.TransactionRepository σ)
    (ar : interfaces.AccountRepository σ) (view : σ → String → Option entity.Account)
    (hstore : SequentialStore tr ar view) (r : CreateRequest) (s : σ) (acc : entity.Account)
    (hv : view s r.accountID = some acc)
    (hok : (r.run tr ar s).err = none) :
    view (r.run tr ar s).state r.accountID =
      some (applyBalance acc r.transactionType r.amount) := by
  unfold CreateRequest.run at hok ⊢
  by_cases hid : r.accountID = ""
  · simp [CreateTransaction, hid, domainerrors.NewErrInvalidInput] at hok
  by_cases hamt : r.amount ≤ 0
  · simp [CreateTransaction, hid, hamt, domainerrors.NewErrInvalidInput] at hok
  by_cases hcur : r.currency = ""
  · simp [CreateTransaction, hid, hamt, hcur, domainerrors.NewErrInvalidInput] at hok
  rcases hg : ar.GetByID r.accountID s with ⟨oa, oe, s1⟩
  rcases oe with _ | e
  swap
  · simp [CreateTransaction, hid, hamt, hcur, hg] at hok
  obtain ⟨hoa, hv1⟩ := hstore.getByID_reads r.accountID s oa s1 hg
  rw [hv] at hoa
  subst hoa
  rw [CreateTransaction_unfold_found _ _ _ _ _ _ _ _ _ _ _ s s1 acc hid hamt hcur hg]
    at hok ⊢
  have haccid : acc.ID = r.accountID := hstore.view_id s r.accountID acc hv
  rcases hc : tr.Create (newTransaction r.newID r.now r.accountID r.amount
    r.currency r.description r.category r.transactionType r.date) s1 with ⟨ce, s2⟩
  rw [hc] at hok
  rcases ce with _ | e
  swap
  · simp at hok
  dsimp only at hok ⊢
  rcases hu : ar.Update (applyBalance acc r.transactionType r.amount) s2 with ⟨ue, s3⟩
  rw [hu] at hok
  rcases ue with _ | e
  swap
  · simp at hok
  dsimp only
  have hupd := hstore.update_stores (applyBalance acc r.transactionType r.amount) s2 s3 hu
  rw [applyBalance_ID, haccid] at hupd
  exact hupd

/-- Over a sequential store, a sequence of appends on one account that all return without
error leaves the running total of the entries as the balance held. -/
theorem createAll_view {σ : Type} (tr : interfaces.TransactionRepository σ)
    (ar : interfaces.AccountRepository σ) (view : σ → String → Option entity.Account)
    (hstore : SequentialStore tr ar view) (reqs : List CreateRequest) (id : String) :
    ∀ (s : σ) (b0 : Float64), (view s id).map (fun a => a.Balance) = some b0 →
      (∀ r ∈ reqs, r.accountID = id) →
      allSucceed tr ar reqs s = true →
      (view (createAll tr ar reqs s) id).map (fun a => a.Balance) =
        some (runningTotal b0 reqs) := by
  induction reqs with
  | nil =>
    intro s b0 hb _ _
    simpa [createAll, runningTotal] using hb
  | cons r rs ih =>
    intro s b0 hb hid hok
    simp only [allSucceed, Bool.and_eq_true, Option.isNone_iff_eq_none] at hok
    have hr : r.accountID = id := hid r (List.mem_cons_self _ _)
    rcases hacc : view s id with _ | acc
    · rw [hacc] at hb
      simp at hb
    rw [hacc] at hb
    simp only [Option.map_some', Option.some.injEq] at hb
    have h1 := CreateRequest.run_view tr ar view hstore r s acc (by rw [hr]; exact hacc) hok.1
    rw [hr] at h1
    have h2 := ih (r.run tr ar s).state (balanceAfter b0 r)
      (by rw [h1]; simp only [Option.map_some', applyBalance_Balance, hb, balanceAfter])
      (fun x hx => hid x (List.mem_cons_of_mem _ hx)) hok.2
    simp only [createAll, runningTotal, List.foldl_cons]
    exact h2

/-- A sum of finite `float64` values, unrolled. -/
theorem Float64.finite_add_finite (a b : ℚ) :
    Float64.finite a + Float64.finite b = Float64.ofRat (a + b) := rfl

/-- A difference of finite `float64` values, unrolled. -/
theorem Float64.finite_sub_finite (a b : ℚ) :
    Float64.finite a - Float64.finite b = Float64.ofRat (a + -b) := rfl

/-- When no step rounds, the running total is the exact balance plus the exact sum of the
signed deltas. -/
theorem runningTotal_exact (reqs : List CreateRequest) :
    ∀ q0 : ℚ, exactSteps q0 reqs = true →
      runningTotal (Float64.finite q0) reqs =
        Float64.finite
          (q0 + (reqs.map (fun r => signedDelta r.transactionType r.amount.toRat)).sum) := by
  induction reqs with
  | nil =>
    intro q0 _
    simp [runningTotal]
  | cons r rs ih =>
    intro q0 h
    rcases hr : r.amount with a | _ | _ | _
    on_goal 2 => simp [exactSteps, hr] at h
    on_goal 2 => simp [exactSteps, hr] at h
    on_goal 2 => simp [exactSteps, hr] at h
    simp only [exactSteps, hr, Bool.and_eq_true, decide_eq_true_eq] at h
    obtain ⟨hstep, hrest⟩ := h
    have hafter : balanceAfter (Float64.finite q0) r =
        Float64.finite (q0 + signedDelta r.transactionType a) := by
      unfold balanceAfter
      unfold signedDelta at hstep ⊢
      rw [hr]
      split_ifs at hstep ⊢
      · rw [← hstep]
        exact Float64.finite_add_finite q0 a
      · rw [← hstep]
        exact Float64.finite_sub_finite q0 a
      · rw [add_zero]
    have h2 := ih _ hrest
    simp only [runningTotal, List.foldl_cons] at h2 ⊢
    rw [hafter, h2]
    simp only [List.map_cons, List.sum_cons, hr, Float64.toRat, add_assoc]

/-- The fields written by `UpdateTransaction` keep the old amount when the supplied amount
is not greater than zero. -/
theorem patchTransaction_Amount_of_nonpos (t : entity.Transaction) (amount : Float64)
    (currency description category : String) (transactionType : String) (date : Time)
    (hamt : amount ≤ 0) :
    (patchTransaction t amount currency description category transactionType date).Amount =
      t.Amount := by
  have h1 : ¬ amount > 0 := Float64.not_lt_of_le amount 0 hamt
  unfold patchTransaction
  simp only [if_neg h1]
  split_ifs <;> rfl

theorem patchAccount_fields (acc : entity.Account) (name accountType currency : String) :
    (patchAccount acc name accountType currency).ID = acc.ID ∧
    (patchAccount acc name accountType currency).UserID = acc.UserID ∧
    (patchAccount acc name accountType currency).Balance = acc.Balance ∧
    (patchAccount acc name accountType currency).Name = (if name ≠ "" then name else acc.Name) ∧
    (patchAccount acc name accountType currency).Type_ =
      (if accountType ≠ "" then accountType else acc.Type_) ∧
    (patchAccount acc name accountType currency).Currency =
      (if currency ≠ "" then currency else acc.Currency) := by
  unfold patchAccount
  by_cases h1 : name = "" <;> by_cases h2 : accountType = "" <;> by_cases h3 : currency = "" <;>
    simp [h1, h2, h3]

theorem patchTransaction_fields (t : entity.Transaction) (amount : Float64)
    (currency description category : String) (transactionType : String) (date : Time) :
    (patchTransaction t amount currency description category transactionType date).ID = t.ID ∧
    (patchTransaction t amount currency description category transactionType date).AccountID =
      t.AccountID ∧
    (patchTransaction t amount currency description category transactionType date).Amount =
      (if amount > 0 then amount else t.Amount) ∧
    (patchTransaction t amount currency description category transactionType date).Currency =
      (if currency ≠ "" then currency else t.Currency) ∧
    (patchTransaction t amount currency description category transactionType
      date).Description = (if description ≠ "" then description else t.Description) ∧
    (patchTransaction t amount currency description category transactionType date).Category =
      (if category ≠ "" then category else t.Category) ∧
    (patchTransaction t amount currency description category transactionType date).Type_ =
      (if transactionType ≠ "" then transactionType else t.Type_) ∧
    (patchTransaction t amount currency description category transactionType date).Date =
      (if date.IsZero then t.Date else date) := by
  unfold patchTransaction
  by_cases h0 : amount > 0 <;> by_cases h1 : currency = "" <;>
    by_cases h2 : description = "" <;> by_cases h3 : category = "" <;>
    by_cases h4 : transactionType = "" <;> by_cases h5 : date.IsZero = true <;>
    simp [h0, h1, h2, h3, h4, h5]

/-- `UpdateTransaction` past a successful lookup. -/
theorem UpdateTransaction_unfold_found {σ : Type} (tr : interfaces.TransactionRepository σ)
    (id : String) (amount : Float64) (currency description category : String)
    (transactionType : String) (date : Time) (s s1 : σ) (t : entity.Transaction)
    (hget : tr.GetByID id s = (some t, none, s1)) :
    UpdateTransaction tr id amount currency description category transactionType date s =
      ⟨if (tr.Update (patchTransaction t amount currency description category transactionType
            date) s1).1 = none
        then some (patchTransaction t amount currency description category transactionType date)
        else none,
       (tr.Update (patchTransaction t amount currency description category transactionType
          date) s1).1.map (Error.wrapped "updating transaction"),
       (tr.Update (patchTransaction t amount currency description category transactionType
          date) s1).2,
       [Call.transactionGetByID id,
        Call.transactionUpdate
          (patchTransaction t amount currency description category transactionType date)]⟩ := by
  simp only [UpdateTransaction, hget]
  rcases tr.Update (patchTransaction t amount currency description category
    transactionType date) s1 with ⟨_ | e, s2⟩ <;> simp

/-- `UpdateAccount` past a successful lookup. -/
theorem UpdateAccount_unfold_found {σ : Type} (ar : interfaces.AccountRepository σ)
    (id name : String) (accountType : String) (currency : String) (s s1 : σ)
    (acc : entity.Account) (hget : ar.GetByID id s = (some acc, none, s1)) :
    UpdateAccount ar id name accountType currency s =
      ⟨if (ar.Update (patchAccount acc name accountType currency) s1).1 = none
        then some (patchAccount acc name accountType currency) else none,
       (ar.Update (patchAccount acc name accountType currency) s1).1.map
         (Error.wrapped "updating account"),
       (ar.Update (patchAccount acc name accountType currency) s1).2,
       [Call.accountGetByID id,
        Call.accountUpdate (patchAccount acc name accountType currency)]⟩ := by
  simp only [UpdateAccount, hget]
  rcases ar.Update (patchAccount acc name accountType currency) s1 with ⟨_ | e, s2⟩ <;> simp

/-- No entry that one `CreateTransaction` call hands to the transaction repository has an
amount that compares `<= 0`. -/
theorem CreateTransaction_stores_no_nonpositive {σ : Type} (tr : interfaces.TransactionRepository σ)
    (ar : interfaces.AccountRepository σ) (r : CreateRequest) (s : σ) :
    ∀ c ∈ (r.run tr ar s).calls, ∀ t, c.storedTransaction = some t → ¬ t.Amount ≤ 0 := by
  unfold CreateRequest.run
  by_cases hid : r.accountID = ""
  · simp [CreateTransaction, hid]
  by_cases hamt : r.amount ≤ 0
  · simp [CreateTransaction, hid, hamt]
  by_cases hcur : r.currency = ""
  · simp [CreateTransaction, hid, hamt, hcur]
  rcases hg : ar.GetByID r.accountID s with ⟨oa, oe, s1⟩
  rcases oe with _ | e
  swap
  · simp [CreateTransaction, hid, hamt, hcur, hg, Call.storedTransaction]
  rcases oa with _ | acc
  · simp [CreateTransaction, hid, hamt, hcur, hg, Call.storedTransaction]
  rw [CreateTransaction_unfold_found _ _ _ _ _ _ _ _ _ _ _ s s1 acc hid hamt hcur hg]
  have hamount : (newTransaction r.newID r.now r.accountID r.amount r.currency r.description
      r.category r.transactionType r.date).Amount = r.amount := rfl
  rcases hc : tr.Create (newTransaction r.newID r.now r.accountID r.amount
    r.currency r.description r.category r.transactionType r.date) s1 with ⟨ce, s2⟩
  rcases ce with _ | e
  swap
  · intro c hmem t ht
    simp only [List.mem_cons, List.mem_singleton, List.not_mem_nil, or_false] at hmem
    rcases hmem with rfl | rfl
    · simp [Call.storedTransaction] at ht
    · simp only [Call.storedTransaction, Option.some.injEq] at ht
      rw [← ht, hamount]
      exact hamt
  dsimp only
  have hcalls : ∀ c ∈ [Call.accountGetByID r.accountID,
      Call.transactionCreate (newTransaction r.newID r.now r.accountID r.amount r.currency
        r.description r.category r.transactionType r.date),
      Call.accountUpdate (applyBalance acc r.transactionType r.amount)],
      ∀ t, c.storedTransaction = some t → ¬ t.Amount ≤ 0 := by
    intro c hmem t ht
    simp only [List.mem_cons, List.mem_singleton, List.not_mem_nil, or_false] at hmem
    rcases hmem with rfl | rfl | rfl
    · simp [Call.storedTransaction] at ht
    · simp only [Call.storedTransaction, Option.some.injEq] at ht
      rw [← ht, hamount]
      exact hamt
    · simp [Call.storedTransaction] at ht
  rcases hu : ar.Update (applyBalance acc r.transactionType r.amount) s2 with ⟨ue, s3⟩
  rcases ue with _ | e <;> exact hcalls

/-- Every entry that one `UpdateTransaction` call hands to the transaction repository has a
positive amount, when the entry fetched has one. -/
theorem UpdateTransaction_stores_positive {σ : Type} (tr : interfaces.TransactionRepository σ)
    (id : String) (amount : Float64) (currency description category : String)
    (transactionType : String) (date : Time) (s : σ)
    (hfetch : ∀ t, (tr.GetByID id s).1 = some t → 0 < t.Amount) :
    ∀ c ∈ (UpdateTransaction tr id amount currency description category transactionType date
      s).calls, ∀ t, c.storedTransaction = some t → 0 < t.Amount := by
  rcases hg : tr.GetByID id s with ⟨ot, oe, s1⟩
  rcases oe with _ | e
  swap
  · simp [UpdateTransaction, hg, Call.storedTransaction]
  rcases ot with _ | t0
  · simp [UpdateTransaction, hg, Call.storedTransaction]
  have ht0 : 0 < t0.Amount := hfetch t0 (by rw [hg])
  rw [UpdateTransaction_unfold_found tr id amount currency description category
    transactionType date s s1 t0 hg]
  intro c hc t ht
  simp only [List.mem_cons, List.mem_singleton, List.not_mem_nil, or_false] at hc
  rcases hc with rfl | rfl
  · simp [Call.storedTransaction] at ht
  · simp only [Call.storedTransaction, Option.some.injEq] at ht
    rw [← ht, (patchTransaction_fields t0 amount currency description category
      transactionType date).2.2.1]
    split_ifs with h
    · exact h
    · exact ht0

/-- Along any sequence of `CreateTransaction` and `UpdateTransaction` calls, no entry handed
to `transactionRepo.Create` or `transactionRepo.Update` has an amount that compares `<= 0`,
provided every entry that `transactionRepo.GetByID` returns to the calls has an amount
greater than zero. -/
theorem runOps_stores_no_nonpositive_amounts {σ : Type}
    (tr : interfaces.TransactionRepository σ) (ar : interfaces.AccountRepository σ)
    (ops : List TransactionOp) (s : σ) (hfetch : fetchedPositive tr ar ops s = true) :
    ∀ c ∈ (runOps tr ar ops s).1, ∀ t, c.storedTransaction = some t → ¬ t.Amount ≤ 0 := by
  induction ops generalizing s with
  | nil => simp [runOps]
  | cons op ops ih =>
    intro c hc t ht
    simp only [runOps, List.mem_append] at hc
    cases op with
    | create r =>
      simp only [fetchedPositive] at hfetch
      rcases hc with hc | hc
      · exact CreateTransaction_stores_no_nonpositive tr ar r s c hc t ht
      · exact ih _ hfetch c hc t ht
    | update id amount currency description category transactionType date =>
      simp only [fetchedPositive, Bool.and_eq_true] at hfetch
      rcases hc with hc | hc
      · refine Float64.not_le_of_lt 0 t.Amount
          (UpdateTransaction_stores_positive tr id amount currency description category
            transactionType date s (fun t0 ht0 => ?_) c hc t ht)
        have h1 := hfetch.1
        rw [ht0] at h1
        simpa using h1
      · exact ih _ hfetch.2 c hc t ht

end Lemmas

/-! ## The claims -/

section Claims

open postgres service fixture

/-- C1: for an existing account `acc`, a non-empty account id and currency and an amount
greater than zero, a `CreateTransaction` call that returns without error (both repository
writes succeeded) has issued exactly the calls `GetByID`, `transactionRepo.Create` and
`accountRepo.Update`, and the account handed to `accountRepo.Update` is `acc` with
`Balance = acc.Balance + amount` for type INCOME and `Balance = acc.Balance - amount` for
type EXPENSE. -/
theorem CreateTransaction_hands_adjusted_balance_to_update {σ : Type} (tr : interfaces.TransactionRepository σ)
    (ar : interfaces.AccountRepository σ) (newID : String) (now : Time) (accountID : String)
    (amount : Float64) (currency description category : String) (transactionType : String)
    (date : Time) (s s1 : σ) (acc : entity.Account)
    (hid : accountID ≠ "") (hamt : 0 < amount) (hcur : currency ≠ "")
    (hget : ar.GetByID accountID s = (some acc, none, s1))
    (hok : (CreateTransaction tr ar newID now accountID amount currency description category
        transactionType date s).err = none) :
    (transactionType = constant.TransactionTypeIncome →
      ∃ t, (CreateTransaction tr ar newID now accountID amount currency description category
        transactionType date s).calls =
        [Call.accountGetByID accountID, Call.transactionCreate t,
          Call.accountUpdate { acc with Balance := acc.Balance + amount }]) ∧
    (transactionType = constant.TransactionTypeExpense →
      ∃ t, (CreateTransaction tr ar newID now accountID amount currency description category
        transactionType date s).calls =
        [Call.accountGetByID accountID, Call.transactionCreate t,
          Call.accountUpdate { acc with Balance := acc.Balance - amount }]) := by
  rw [CreateTransaction_unfold_found tr ar newID now accountID amount currency description
    category transactionType date s s1 acc hid (Float64.not_le_of_lt 0 amount hamt) hcur hget] at hok ⊢
  rcases hc : tr.Create (newTransaction newID now accountID amount currency description
    category transactionType date) s1 with ⟨_ | e, s2⟩
  · rw [hc] at hok
    dsimp only at hok ⊢
    rcases hu : ar.Update (applyBalance acc transactionType amount) s2 with ⟨_ | e, s3⟩
    · have hinc : applyBalance acc constant.TransactionTypeIncome amount =
          { acc with Balance := acc.Balance + amount } := by
        simp [applyBalance]
      have hexp : applyBalance acc constant.TransactionTypeExpense amount =
          { acc with Balance := acc.Balance - amount } := by
        simp [applyBalance, constant.TransactionTypeIncome, constant.TransactionTypeExpense]
      constructor
      · intro hty
        subst hty
        rw [hinc] at hu ⊢
        exact ⟨newTransaction newID now accountID amount currency description category
          constant.TransactionTypeIncome date, by simp [hu]⟩
      · intro hty
        subst hty
        rw [hexp] at hu ⊢
        exact ⟨newTransaction newID now accountID amount currency description category
          constant.TransactionTypeExpense date, by simp [hu]⟩
    · rw [hu] at hok
      simp at hok
  · rw [hc] at hok
    simp at hok

/-- C1 at concrete inputs: an income of 250 on the account holding 1000 hands over the
balance 1250; an income of 1 on the account holding 10^16 hands over the `float64` sum
`10^16 + 1`, which is 10^16. -/
theorem CreateTransaction_hands_adjusted_balance_to_update_witness :
    (∃ t, (CreateTransaction NewTransactionRepository NewAccountRepository "tx-2" 11 "acc-1" 250
        "USD" "Salary" "Income" "INCOME" 0 db1000).calls =
      [Call.accountGetByID "acc-1", Call.transactionCreate t,
        Call.accountUpdate
          { domainAccount1000 with Balance := domainAccount1000.Balance + 250 }]) ∧
    domainAccount1000.Balance + 250 = 1250 ∧
    (∃ t, (CreateTransaction NewTransactionRepository NewAccountRepository "tx-a" 10 "acc-1" 1
        "USD" "" "" "INCOME" 0 dbLarge).calls =
      [Call.accountGetByID "acc-1", Call.transactionCreate t,
        Call.accountUpdate
          { domainAccountLarge with Balance := domainAccountLarge.Balance + 1 }]) ∧
    domainAccountLarge.Balance + 1 = 10000000000000000 :=
  ⟨(CreateTransaction_hands_adjusted_balance_to_update NewTransactionRepository
      NewAccountRepository "tx-2" 11 "acc-1" 250 "USD" "Salary" "Income" "INCOME" 0 db1000
      db1000 domainAccount1000 (by decide) (by decide!) (by decide) (by decide!)
      (by decide!)).1 rfl,
   by decide!,
   (CreateTransaction_hands_adjusted_balance_to_update NewTransactionRepository
      NewAccountRepository "tx-a" 10 "acc-1" 1 "USD" "" "" "INCOME" 0 dbLarge
      dbLarge domainAccountLarge (by decide) (by decide!) (by decide) (by decide!)
      (by decide!)).1 rfl,
   by decide!⟩

/-- C2, as stated, fails in `float64` arithmetic: on the account holding 10^16, two incomes
of 1 are appended one after the other, both calls return without error, and the balance held
afterwards is still 10^16, while the initial balance plus the sum of the signed amounts is
10^16 + 2 (itself a `float64` value). -/
theorem createAll_rounds_small_incomes_away :
    allSucceed NewTransactionRepository NewAccountRepository [incomeOneA, incomeOneB]
      dbLarge = true ∧
    storedBalance dbLarge "acc-1" = some (Float64.finite 10000000000000000) ∧
    storedBalance (createAll NewTransactionRepository NewAccountRepository
        [incomeOneA, incomeOneB] dbLarge) "acc-1" = some (Float64.finite 10000000000000000) ∧
    (10000000000000000 : ℚ) + ([incomeOneA, incomeOneB].map
        (fun r => signedDelta r.transactionType r.amount.toRat)).sum = 10000000000000002 ∧
    Float64.ofRat 10000000000000002 = Float64.finite 10000000000000002 ∧
    storedBalance (createAll NewTransactionRepository NewAccountRepository
        [incomeOneA, incomeOneB] dbLarge) "acc-1" ≠
      some (Float64.finite ((10000000000000000 : ℚ) + ([incomeOneA, incomeOneB].map
        (fun r => signedDelta r.transactionType r.amount.toRat)).sum)) := by
  decide!

/-- C2, amended (conservation up to rounding): over a sequential store, in which
`accountRepo.GetByID` returns what `accountRepo.Update` last stored, for every initial
balance `b0` of an account and every finite sequence of `CreateTransaction` calls on that
account that all return without error, the balance held afterwards is the running total of
the entries: the amounts added (income) or subtracted (expense) one at a time, in call
order, in `float64` arithmetic. Whenever no step of that running total rounds, it is the
initial balance plus the exact sum of the signed amounts. -/
theorem createAll_running_total {σ : Type} (tr : interfaces.TransactionRepository σ)
    (ar : interfaces.AccountRepository σ) (view : σ → String → Option entity.Account)
    (hstore : SequentialStore tr ar view) (reqs : List CreateRequest) (s : σ) (id : String)
    (b0 : Float64)
    (hb : (view s id).map (fun a => a.Balance) = some b0)
    (hid : ∀ r ∈ reqs, r.accountID = id)
    (hok : allSucceed tr ar reqs s = true) :
    (view (createAll tr ar reqs s) id).map (fun a => a.Balance) =
      some (runningTotal b0 reqs) ∧
    (∀ q0 : ℚ, b0 = Float64.finite q0 → exactSteps q0 reqs = true →
      (view (createAll tr ar reqs s) id).map (fun a => a.Balance) =
        some (Float64.finite
          (q0 + (reqs.map (fun r => signedDelta r.transactionType r.amount.toRat)).sum))) := by
  have h := createAll_view tr ar view hstore reqs id s b0 hb hid hok
  refine ⟨h, fun q0 hq hexact => ?_⟩
  rw [h, hq, runningTotal_exact reqs q0 hexact]

/-- C2 on the PostgreSQL repositories, at the scenario of the specification: the three calls
return without error and no step rounds, so that 1000 - 150 + 250 - 100 = 1000; after the
first two calls the balance held is 1100. -/
theorem createAll_running_total_witness :
    allSucceed NewTransactionRepository NewAccountRepository
      [expense150, income250, expense100] db1000 = true ∧
    exactSteps 1000 [expense150, income250, expense100] = true ∧
    storedBalance (createAll NewTransactionRepository NewAccountRepository
        [expense150, income250, expense100] db1000) "acc-1" =
      some (Float64.finite (1000 + ([expense150, income250, expense100].map
        (fun r => signedDelta r.transactionType r.amount.toRat)).sum)) ∧
    (1000 : ℚ) + ([expense150, income250, expense100].map
        (fun r => signedDelta r.transactionType r.amount.toRat)).sum = 1000 ∧
    storedBalance (createAll NewTransactionRepository NewAccountRepository
        [expense150, income250] db1000) "acc-1" = some (Float64.finite 1100) :=
  ⟨by decide!, by decide!,
   (createAll_running_total NewTransactionRepository NewAccountRepository storedAccount
      postgres_sequentialStore [expense150, income250, expense100] db1000 "acc-1" 1000
      (by decide!) (by decide) (by decide!)).2 1000 (by decide!) (by decide!),
   by decide!,
   ((createAll_running_total NewTransactionRepository NewAccountRepository storedAccount
      postgres_sequentialStore [expense150, income250] db1000 "acc-1" 1000
      (by decide!) (by decide) (by decide!)).1).trans (by decide!)⟩

/-- C3 (atomicity), evaluated at a storage fault between the insert and the balance update:
`CreateTransaction` returns the wrapped update error and no transaction, the balance is
unchanged, and the ledger row inserted before the fault is still in the store. -/
theorem CreateTransaction_update_fault_keeps_ledger_row :
    (expense150.run NewTransactionRepository NewAccountRepository dbFaultAtUpdate).err =
      some (Error.wrapped "updating account balance" (Error.driver "connection reset")) ∧
    (expense150.run NewTransactionRepository NewAccountRepository dbFaultAtUpdate).value =
      none ∧
    dbFaultAtUpdate.transactions = [] ∧
    (expense150.run NewTransactionRepository NewAccountRepository
        dbFaultAtUpdate).state.transactions =
      [{ ID := "tx-1", AccountID := "acc-1", Amount := 150, Currency := "USD",
         Description := "Gas", Date := 10, Type_ := "EXPENSE", Category := "Transport",
         CreatedAt := 10, UpdatedAt := 10 }] ∧
    (expense150.run NewTransactionRepository NewAccountRepository
        dbFaultAtUpdate).state.accounts = dbFaultAtUpdate.accounts := by
  decide!

/-- C4 (not-found short-circuit): for an otherwise valid input, when `accountRepo.GetByID`
returns `(nil, nil)`, `CreateTransaction` returns no transaction and
`ErrNotFound{Entity: "account", ID: accountID}`; the only repository call issued is that
`GetByID`, so neither `transactionRepo.Create` nor `accountRepo.Update` (no write at all) is
called. -/
theorem CreateTransaction_account_not_found {σ : Type} (tr : interfaces.TransactionRepository σ)
    (ar : interfaces.AccountRepository σ) (newID : String) (now : Time) (accountID : String)
    (amount : Float64) (currency description category : String) (transactionType : String)
    (date : Time) (s s1 : σ)
    (hid : accountID ≠ "") (hamt : 0 < amount) (hcur : currency ≠ "")
    (hget : ar.GetByID accountID s = (none, none, s1)) :
    (CreateTransaction tr ar newID now accountID amount currency description category
        transactionType date s).value = none ∧
    (CreateTransaction tr ar newID now accountID amount currency description category
        transactionType date s).err = some (Error.ErrNotFound "account" accountID) ∧
    (CreateTransaction tr ar newID now accountID amount currency description category
        transactionType date s).calls = [Call.accountGetByID accountID] ∧
    (∀ c ∈ (CreateTransaction tr ar newID now accountID amount currency description category
        transactionType date s).calls, c.isWrite = false) := by
  have h1 : ¬ amount ≤ 0 := Float64.not_le_of_lt 0 amount hamt
  simp [CreateTransaction, hid, h1, hcur, hget, domainerrors.NewErrNotFound, Call.isWrite]


/-- C4 at a concrete input: an append against an id that the database does not hold. -/
theorem CreateTransaction_account_not_found_witness :
    (CreateTransaction NewTransactionRepository NewAccountRepository "tx-9" 10 "missing" 50
        "USD" "Test" "Test" "EXPENSE" 0 db1000).err =
      some (Error.ErrNotFound "account" "missing") ∧
    (CreateTransaction NewTransactionRepository NewAccountRepository "tx-9" 10 "missing" 50
        "USD" "Test" "Test" "EXPENSE" 0 db1000).calls = [Call.accountGetByID "missing"] :=
  have h := CreateTransaction_account_not_found NewTransactionRepository NewAccountRepository
    "tx-9" 10 "missing" 50 "USD" "Test" "Test" "EXPENSE" 0 db1000 db1000
    (by decide) (by decide!) (by decide) (by decide!)
  ⟨h.2.1, h.2.2.1⟩

/-- C5 (create-path input rejection): with an empty account id, an amount that is zero or
negative, or an empty currency, `CreateTransaction` returns no transaction and an
`ErrInvalidInput` whose field is the first failing one in the order `account_id`, `amount`,
`currency`; it issues no repository call and leaves the store as it was. -/
theorem CreateTransaction_rejects_invalid_input {σ : Type} (tr : interfaces.TransactionRepository σ)
    (ar : interfaces.AccountRepository σ) (newID : String) (now : Time) (accountID : String)
    (amount : Float64) (currency description category : String) (transactionType : String)
    (date : Time) (s : σ)
    (h : accountID = "" ∨ amount ≤ 0 ∨ currency = "") :
    (CreateTransaction tr ar newID now accountID amount currency description category
        transactionType date s).value = none ∧
    (∃ msg, (CreateTransaction tr ar newID now accountID amount currency description category
        transactionType date s).err = some (Error.ErrInvalidInput
          (if accountID = "" then "account_id" else if amount ≤ 0 then "amount" else "currency")
          msg)) ∧
    (CreateTransaction tr ar newID now accountID amount currency description category
        transactionType date s).calls = [] ∧
    (CreateTransaction tr ar newID now accountID amount currency description category
        transactionType date s).state = s := by
  by_cases hid : accountID = ""
  · simp [CreateTransaction, hid, domainerrors.NewErrInvalidInput]
  by_cases hamt : amount ≤ 0
  · simp [CreateTransaction, hid, hamt, domainerrors.NewErrInvalidInput]
  have hcur : currency = "" := by tauto
  simp [CreateTransaction, hid, hamt, hcur, domainerrors.NewErrInvalidInput]


/-- C5 at a concrete input: amount zero and an empty currency; the field reported is
`amount`. -/
theorem CreateTransaction_rejects_invalid_input_witness :
    (∃ msg, (CreateTransaction NewTransactionRepository NewAccountRepository "tx-9" 10 "acc-1"
        0 "" "Test" "Test" "EXPENSE" 0 db1000).err =
      some (Error.ErrInvalidInput "amount" msg)) ∧
    (CreateTransaction NewTransactionRepository NewAccountRepository "tx-9" 10 "acc-1"
        0 "" "Test" "Test" "EXPENSE" 0 db1000).calls = [] :=
  have h := CreateTransaction_rejects_invalid_input NewTransactionRepository
    NewAccountRepository "tx-9" 10 "acc-1" 0 "" "Test" "Test" "EXPENSE" 0 db1000
    (Or.inr (Or.inl (by decide!)))
  ⟨h.2.1, h.2.2.1⟩

/-- C6, as stated, fails: on an existing entry, `UpdateTransaction` with amount 0 (and with
amount -5) is not rejected; it returns without error and `transactionRepo.Update` is called
with the entry, whose amount is still the stored 100. -/
theorem UpdateTransaction_nonpositive_amount_not_rejected :
    (UpdateTransaction NewTransactionRepository "tx-1" 0 "" "Bonus" "" "" 0 dbWithIncome).err =
      none ∧
    (UpdateTransaction NewTransactionRepository "tx-1" 0 "" "Bonus" "" "" 0
        dbWithIncome).calls =
      [Call.transactionGetByID "tx-1",
        Call.transactionUpdate
          { ID := "tx-1", AccountID := "acc-1", Amount := 100, Currency := "USD",
            Description := "Bonus", Date := 5, Type_ := "INCOME", Category := "Income" }] ∧
    (UpdateTransaction NewTransactionRepository "tx-1" (-5) "" "Bonus" "" "" 0
        dbWithIncome).err = none ∧
    (UpdateTransaction NewTransactionRepository "tx-1" (-5) "" "Bonus" "" "" 0
        dbWithIncome).calls =
      [Call.transactionGetByID "tx-1",
        Call.transactionUpdate
          { ID := "tx-1", AccountID := "acc-1", Amount := 100, Currency := "USD",
            Description := "Bonus", Date := 5, Type_ := "INCOME", Category := "Income" }] := by
  decide!

/-- C6, amended: for every existing transaction `t` and every amount that is zero or
negative, `UpdateTransaction` treats the amount as not supplied: it calls
`transactionRepo.Update` exactly once, with an entry whose `Amount` is `t.Amount`, and the
only error it can return is the error of that `Update`, wrapped (it produces no
`ErrInvalidInput` of its own). -/
theorem UpdateTransaction_nonpositive_amount_keeps_amount {σ : Type}
    (tr : interfaces.TransactionRepository σ)
    (id : String) (amount : Float64) (currency description category : String)
    (transactionType : String) (date : Time) (s s1 : σ) (t : entity.Transaction)
    (hget : tr.GetByID id s = (some t, none, s1)) (hamt : amount ≤ 0) :
    (patchTransaction t amount currency description category transactionType date).Amount =
      t.Amount ∧
    (UpdateTransaction tr id amount currency description category transactionType date
      s).calls =
      [Call.transactionGetByID id,
        Call.transactionUpdate
          (patchTransaction t amount currency description category transactionType date)] ∧
    (UpdateTransaction tr id amount currency description category transactionType date
      s).err =
      (tr.Update (patchTransaction t amount currency description category transactionType
        date) s1).1.map (Error.wrapped "updating transaction") := by
  refine ⟨patchTransaction_Amount_of_nonpos t amount currency description category
    transactionType date hamt, ?_, ?_⟩
  · simp only [UpdateTransaction, hget]
    rcases tr.Update (patchTransaction t amount currency description category
      transactionType date) s1 with ⟨_ | e, s2⟩ <;> rfl
  · simp only [UpdateTransaction, hget]
    rcases tr.Update (patchTransaction t amount currency description category
      transactionType date) s1 with ⟨_ | e, s2⟩ <;> rfl

/-- C6 amended, at a concrete input: amount 0 on the stored income entry of 100. -/
theorem UpdateTransaction_nonpositive_amount_keeps_amount_witness :
    (patchTransaction
      { ID := "tx-1", AccountID := "acc-1", Amount := 100, Currency := "USD",
        Description := "Salary", Date := 5, Type_ := "INCOME", Category := "Income" }
      0 "" "Bonus" "" "" 0).Amount = 100 :=
  (UpdateTransaction_nonpositive_amount_keeps_amount NewTransactionRepository "tx-1" 0 ""
    "Bonus" "" "" 0 dbWithIncome dbWithIncome
    { ID := "tx-1", AccountID := "acc-1", Amount := 100, Currency := "USD",
      Description := "Salary", Date := 5, Type_ := "INCOME", Category := "Income" }
    (by decide!) (by decide!)).1

/-- C7 (concurrency), evaluated on two concurrent income appends of 1 on an account at 0, with
the repository calls interleaved lookup, lookup, insert, insert, update, update: both calls
return successfully and two ledger rows exist, but the stored balance is 1, not 2 (the
second update overwrites the first). Run one after the other, the same two calls give 2. -/
theorem runSchedule_interleaved_appends_lose_update :
    ((runSchedule NewTransactionRepository NewAccountRepository [0, 1, 0, 1, 0, 1]
        [(incomeOneA, CreateState.entry), (incomeOneB, CreateState.entry)] dbZero).1.all
      (fun q => q.2.succeeded)) = true ∧
    (runSchedule NewTransactionRepository NewAccountRepository [0, 1, 0, 1, 0, 1]
        [(incomeOneA, CreateState.entry), (incomeOneB, CreateState.entry)]
        dbZero).2.transactions.length = 2 ∧
    storedBalance (runSchedule NewTransactionRepository NewAccountRepository [0, 1, 0, 1, 0, 1]
        [(incomeOneA, CreateState.entry), (incomeOneB, CreateState.entry)] dbZero).2 "acc-1" =
      some 1 ∧
    storedBalance (runSchedule NewTransactionRepository NewAccountRepository [0, 0, 0, 1, 1, 1]
        [(incomeOneA, CreateState.entry), (incomeOneB, CreateState.entry)] dbZero).2 "acc-1" =
      some 2 := by
  decide!

/-- C8 (delete symmetry), evaluated on an account at 1100 whose ledger holds one income entry
of 100: `DeleteTransaction` succeeds and removes the entry, issuing the single call
`transactionRepo.Delete`, and the stored balance is still 1100 (full reversal would give
1000). -/
theorem DeleteTransaction_leaves_balance :
    (DeleteTransaction NewTransactionRepository "tx-1" dbWithIncome).err = none ∧
    (DeleteTransaction NewTransactionRepository "tx-1" dbWithIncome).calls =
      [Call.transactionDelete "tx-1"] ∧
    (DeleteTransaction NewTransactionRepository "tx-1" dbWithIncome).state.transactions = [] ∧
    storedBalance dbWithIncome "acc-1" = some 1100 ∧
    storedBalance (DeleteTransaction NewTransactionRepository "tx-1" dbWithIncome).state "acc-1" =
      some 1100 := by
  decide!

/-- C9 (update symmetry), evaluated on an account at 1100 whose ledger holds one income entry
of 100: `UpdateTransaction` raising the amount to 250 succeeds and stores the new amount,
issuing only calls on the transaction repository, and the stored balance is still 1100 (the
difference of the signed effects, +150, would give 1250). -/
theorem UpdateTransaction_leaves_balance :
    (UpdateTransaction NewTransactionRepository "tx-1" 250 "" "" "" "" 0 dbWithIncome).err =
      none ∧
    (UpdateTransaction NewTransactionRepository "tx-1" 250 "" "" "" "" 0 dbWithIncome).calls =
      [Call.transactionGetByID "tx-1",
        Call.transactionUpdate
          { ID := "tx-1", AccountID := "acc-1", Amount := 250, Currency := "USD",
            Description := "Salary", Date := 5, Type_ := "INCOME", Category := "Income" }] ∧
    (UpdateTransaction NewTransactionRepository "tx-1" 250 "" "" "" "" 0
        dbWithIncome).state.transactions.map (fun r => r.Amount) = [250] ∧
    storedBalance dbWithIncome "acc-1" = some 1100 ∧
    storedBalance (UpdateTransaction NewTransactionRepository "tx-1" 250 "" "" "" "" 0
        dbWithIncome).state "acc-1" = some 1100 := by
  decide!

/-- C10, as stated, fails: `AccountRepository.Update` with a record whose `Balance` is 5 on
the row holding 1000 succeeds and the stored balance after it differs from the one before
(it is 5). -/
theorem AccountRepository_Update_overwrites_balance :
    (AccountRepository.Update { domainAccount1000 with Balance := 5 } db1000).1 = none ∧
    storedBalance (AccountRepository.Update { domainAccount1000 with Balance := 5 } db1000).2
        "acc-1" ≠ storedBalance db1000 "acc-1" ∧
    storedBalance (AccountRepository.Update { domainAccount1000 with Balance := 5 } db1000).2
        "acc-1" = some 5 := by
  decide!

/-- C10, amended: for every account record passed to `AccountRepository.Update`, when the
update succeeds the stored balance of that row equals the record's `Balance` field (the
statement sets `balance = $5` together with user id, name, type, currency and timestamp). -/
theorem AccountRepository_Update_stores_record_balance (a : entity.Account) (db : DB)
    (h : (AccountRepository.Update a db).1 = none) :
    storedBalance (AccountRepository.Update a db).2 a.ID = some a.Balance :=
  AccountRepository.Update_storedBalance a db h

/-- C10 amended, at a concrete input. -/
theorem AccountRepository_Update_stores_record_balance_witness :
    storedBalance (AccountRepository.Update { domainAccount1000 with Balance := 5 } db1000).2
      ({ domainAccount1000 with Balance := 5 } : entity.Account).ID =
        some ({ domainAccount1000 with Balance := 5 } : entity.Account).Balance :=
  AccountRepository_Update_stores_record_balance { domainAccount1000 with Balance := 5 } db1000
    (by decide!)

end Claims

/-! ## The claims on accounts, handlers and the transaction manager -/

section HandlerLemmas

open handler common

theorem transactionErrorResponse_Status (err : Error) (uri : String) :
    (transactionErrorResponse err uri).Status =
      if err.asNotFound then 404 else if err.asInvalidInput then 400 else 500 := by
  unfold transactionErrorResponse
  split_ifs <;> rfl

end HandlerLemmas

section MoreClaims

open postgres service fixture handler common

/-- C11 (metadata edits keep the balance): for every existing account `acc` and every name,
type and currency, an `UpdateAccount` call that returns without error returns, and hands
`accountRepo.Update`, an account whose `ID`, `UserID` and `Balance` are those of `acc` and
whose `Name`, `Type` and `Currency` are the supplied value when it is non-empty and the value
of `acc` when it is empty. -/
theorem UpdateAccount_keeps_identity_and_balance {σ : Type} (ar : interfaces.AccountRepository σ)
    (id name : String) (accountType : String) (currency : String) (s s1 : σ)
    (acc : entity.Account) (hget : ar.GetByID id s = (some acc, none, s1))
    (hok : (UpdateAccount ar id name accountType currency s).err = none) :
    ∃ a, (UpdateAccount ar id name accountType currency s).value = some a ∧
      (UpdateAccount ar id name accountType currency s).calls =
        [Call.accountGetByID id, Call.accountUpdate a] ∧
      a.ID = acc.ID ∧ a.UserID = acc.UserID ∧ a.Balance = acc.Balance ∧
      a.Name = (if name ≠ "" then name else acc.Name) ∧
      a.Type_ = (if accountType ≠ "" then accountType else acc.Type_) ∧
      a.Currency = (if currency ≠ "" then currency else acc.Currency) := by
  rw [UpdateAccount_unfold_found ar id name accountType currency s s1 acc hget] at hok ⊢
  refine ⟨patchAccount acc name accountType currency, ?_, rfl,
    patchAccount_fields acc name accountType currency⟩
  simp only [Option.map_eq_none'] at hok
  simp [hok]

/-- C11 at a concrete input: renaming the account holding 1000. -/
theorem UpdateAccount_keeps_identity_and_balance_witness :
    ∃ a, (UpdateAccount NewAccountRepository "acc-1" "Savings" "" "" db1000).value = some a ∧
      a.Balance = 1000 ∧ a.Name = "Savings" ∧ a.Currency = "USD" := by
  obtain ⟨a, hv, _, _, _, hbal, hname, _, hcur⟩ :=
    UpdateAccount_keeps_identity_and_balance NewAccountRepository "acc-1" "Savings" "" ""
      db1000 db1000 domainAccount1000 (by decide!) (by decide!)
  exact ⟨a, hv, hbal, hname, hcur⟩

/-- C12: for every non-empty user id, name and currency and every account type, when the
user exists and the call returns without error (the insert succeeded), `CreateAccount`
returns an account with `Balance` 0, a non-empty `ID` (the fresh UUID string) and `UserID`,
`Name`, `Type` and `Currency` equal to the inputs; the repository calls are exactly one
`userRepo.GetByID` and one `accountRepo.Create`. -/
theorem CreateAccount_opens_with_zero_balance {σ : Type} (ar : interfaces.AccountRepository σ)
    (ur : interfaces.UserRepository σ) (newID userID name : String) (accountType : String)
    (currency : String) (s s1 : σ) (u : entity.User)
    (hnew : newID ≠ "") (huid : userID ≠ "") (hname : name ≠ "") (hcur : currency ≠ "")
    (hget : ur.GetByID userID s = (some u, none, s1))
    (hok : (CreateAccount ar ur newID userID name accountType currency s).err = none) :
    ∃ a, (CreateAccount ar ur newID userID name accountType currency s).value = some a ∧
      a.Balance = 0 ∧ a.ID ≠ "" ∧ a.UserID = userID ∧ a.Name = name ∧
      a.Type_ = accountType ∧ a.Currency = currency ∧
      (CreateAccount ar ur newID userID name accountType currency s).calls =
        [Call.userGetByID userID, Call.accountCreate a] := by
  simp only [CreateAccount, if_neg huid, if_neg hname, if_neg hcur, hget] at hok ⊢
  rcases hc : ar.Create (newAccount newID userID name accountType currency) s1 with ⟨_ | e, s2⟩
  · exact ⟨newAccount newID userID name accountType currency, rfl, rfl, hnew, rfl, rfl, rfl, rfl,
      rfl⟩
  · rw [hc] at hok
    simp at hok

/-- C12 at a concrete input: a savings account for the stored user. -/
theorem CreateAccount_opens_with_zero_balance_witness :
    ∃ a, (CreateAccount NewAccountRepository NewUserRepository "acc-2" "user-1" "Savings"
        "SAVINGS" "USD" dbWithUser).value = some a ∧ a.Balance = 0 ∧
      (CreateAccount NewAccountRepository NewUserRepository "acc-2" "user-1" "Savings"
        "SAVINGS" "USD" dbWithUser).calls = [Call.userGetByID "user-1", Call.accountCreate a] := by
  obtain ⟨a, hv, hbal, _, _, _, _, _, hcalls⟩ :=
    CreateAccount_opens_with_zero_balance NewAccountRepository NewUserRepository "acc-2"
      "user-1" "Savings" "SAVINGS" "USD" dbWithUser dbWithUser
      { ID := "user-1", Name := "Test User", Email := "test@example.com", CreatedAt := 1,
        UpdatedAt := 1 }
      (by decide) (by decide) (by decide) (by decide) (by decide!) (by decide!)
  exact ⟨a, hv, hbal, hcalls⟩

/-- C13, evaluated at a NaN amount: the guard `amount <= 0` of `CreateTransaction` is false
for NaN, so the call on an existing account returns without error and hands
`transactionRepo.Create` an entry whose amount is NaN, which is not greater than zero; the
entry is stored, and the balance of the account becomes NaN. No `UpdateTransaction` call is
involved, so no entry is fetched. -/
theorem CreateTransaction_stores_nan_amount :
    fetchedPositive NewTransactionRepository NewAccountRepository
        [TransactionOp.create incomeNaN] db1000 = true ∧
    (incomeNaN.run NewTransactionRepository NewAccountRepository db1000).err = none ∧
    ((runOps NewTransactionRepository NewAccountRepository
        [TransactionOp.create incomeNaN] db1000).1.filterMap Call.storedTransaction).map
      (fun t => t.Amount) = [Float64.nan] ∧
    ¬ ((0 : Float64) < Float64.nan) ∧
    (runOps NewTransactionRepository NewAccountRepository
        [TransactionOp.create incomeNaN] db1000).2.transactions.map (fun r => r.Amount) =
      [Float64.nan] ∧
    storedBalance (runOps NewTransactionRepository NewAccountRepository
        [TransactionOp.create incomeNaN] db1000).2 "acc-1" = some Float64.nan := by
  decide!

/-- C14, as stated, fails: `CreateTransaction` with the type `BOGUS` on an existing account
returns without error and the entry is stored with that type. -/
theorem CreateTransaction_accepts_unknown_type :
    (CreateTransaction NewTransactionRepository NewAccountRepository "tx-9" 10 "acc-1" 50
        "USD" "Test" "Test" "BOGUS" 0 db1000).err = none ∧
    (CreateTransaction NewTransactionRepository NewAccountRepository "tx-9" 10 "acc-1" 50
        "USD" "Test" "Test" "BOGUS" 0 db1000).state.transactions.map (fun r => r.Type_) =
      ["BOGUS"] := by
  decide!

/-- C14, amended: the type is validated against the enumeration by the create-transaction
handler: for every decoded POST request whose type is not one of INCOME, EXPENSE, TRANSFER,
the handler answers with the validation problem (status 400) and the store unchanged,
whatever the service is (the service is not called). -/
theorem CreateTransactionHandler_rejects_unknown_type {σ : Type} (uuidParse : String → Bool)
    (svc : interfaces.TransactionService σ) (r : Request CreateTransactionRequest)
    (req : CreateTransactionRequest) (s : σ)
    (hm : r.Method = "POST") (hb : r.Body = some (some req))
    (hty : req.Type_ ≠ "INCOME" ∧ req.Type_ ≠ "EXPENSE" ∧ req.Type_ ≠ "TRANSFER") :
    CreateTransactionHandler.Handle uuidParse svc r s =
      (WriteValidationProblem (NewValidationProblemWithErrors r.RequestURI (CollectErrors
        [ValidateUUID uuidParse req.AccountID "account_id",
         ValidatePositive req.Amount "amount",
         ValidateCurrency req.Currency "currency",
         ValidateEnum req.Type_ ["INCOME", "EXPENSE", "TRANSFER"] "type"])), s) ∧
    (CreateTransactionHandler.Handle uuidParse svc r s).1.Status = 400 := by
  have henum : ∃ e, ValidateEnum req.Type_ ["INCOME", "EXPENSE", "TRANSFER"] "type" = some e := by
    unfold ValidateEnum
    by_cases h : req.Type_ = ""
    · simp [h]
    · simp [h, hty.1, hty.2.1, hty.2.2]
  obtain ⟨e, he⟩ := henum
  have hlen : (CollectErrors
        [ValidateUUID uuidParse req.AccountID "account_id",
         ValidatePositive req.Amount "amount",
         ValidateCurrency req.Currency "currency",
         ValidateEnum req.Type_ ["INCOME", "EXPENSE", "TRANSFER"] "type"]).length > 0 := by
    rw [he]
    rcases ValidateUUID uuidParse req.AccountID "account_id" with _ | a <;>
      rcases ValidatePositive req.Amount "amount" with _ | b <;>
      rcases ValidateCurrency req.Currency "currency" with _ | c <;>
      simp [CollectErrors]
  have hmain : CreateTransactionHandler.Handle uuidParse svc r s =
      (WriteValidationProblem (NewValidationProblemWithErrors r.RequestURI (CollectErrors
        [ValidateUUID uuidParse req.AccountID "account_id",
         ValidatePositive req.Amount "amount",
         ValidateCurrency req.Currency "currency",
         ValidateEnum req.Type_ ["INCOME", "EXPENSE", "TRANSFER"] "type"])), s) := by
    simp only [CreateTransactionHandler.Handle, hm, hb]
    simp [hlen]
  refine ⟨hmain, ?_⟩
  rw [hmain]
  rfl

/-- C14 amended, at a concrete input: a request with the type `BOGUS`. -/
theorem CreateTransactionHandler_rejects_unknown_type_witness :
    (CreateTransactionHandler.Handle canonicalUUID
      (NewTransactionService NewTransactionRepository NewAccountRepository "tx-9" 10)
      { Method := "POST", Path := "/api/v1/transactions", RequestURI := "/api/v1/transactions",
        Body := some (some { AccountID := "123e4567-e89b-12d3-a456-426614174000", Amount := 50,
                             Currency := "USD", Description := "", Category := "",
                             Type_ := "BOGUS", Date := none }) }
      db1000).1.Status = 400 :=
  (CreateTransactionHandler_rejects_unknown_type canonicalUUID
    (NewTransactionService NewTransactionRepository NewAccountRepository "tx-9" 10)
    { Method := "POST", Path := "/api/v1/transactions", RequestURI := "/api/v1/transactions",
      Body := some (some { AccountID := "123e4567-e89b-12d3-a456-426614174000", Amount := 50,
                           Currency := "USD", Description := "", Category := "",
                           Type_ := "BOGUS", Date := none }) }
    { AccountID := "123e4567-e89b-12d3-a456-426614174000", Amount := 50, Currency := "USD",
      Description := "", Category := "", Type_ := "BOGUS", Date := none }
    db1000 rfl rfl (by decide)).2

/-- C15 (error-to-status mapping): in the create-transaction and the update-transaction
handler, for every request that passes the handler's checks and field validation, when the
service returns an error the response status is 404 if the error is or wraps an
`ErrNotFound`, otherwise 400 if it is or wraps an `ErrInvalidInput`, and 500 for every other
error. -/
theorem transaction_handlers_error_status {σ : Type} (uuidParse : String → Bool) (svc : interfaces.TransactionService σ)
    (s s1 : σ) (err : Error) (v : Option entity.Transaction) :
    (∀ (r : Request CreateTransactionRequest) (req : CreateTransactionRequest),
      r.Method = "POST" → r.Body = some (some req) →
      CollectErrors
        [ValidateUUID uuidParse req.AccountID "account_id",
         ValidatePositive req.Amount "amount",
         ValidateCurrency req.Currency "currency",
         ValidateEnum req.Type_ ["INCOME", "EXPENSE", "TRANSFER"] "type"] = [] →
      svc.CreateTransaction req.AccountID req.Amount req.Currency req.Description req.Category
        req.Type_ (req.Date.getD 0) s = (v, some err, s1) →
      (CreateTransactionHandler.Handle uuidParse svc r s).1.Status =
        if err.asNotFound then 404 else if err.asInvalidInput then 400 else 500) ∧
    (∀ (r : Request UpdateTransactionRequest) (req : UpdateTransactionRequest),
      r.Method = "PUT" → extractID r.Path "/api/v1/transactions/" ≠ "" →
      ValidateUUID uuidParse (extractID r.Path "/api/v1/transactions/") "id" = none →
      r.Body = some (some req) → updateValidationErrors req = [] →
      svc.UpdateTransaction (extractID r.Path "/api/v1/transactions/") req.Amount req.Currency
        req.Description req.Category req.Type_ (req.Date.getD 0) s = (v, some err, s1) →
      (UpdateTransactionHandler.Handle uuidParse svc r s).1.Status =
        if err.asNotFound then 404 else if err.asInvalidInput then 400 else 500) := by
  constructor
  · intro r req hm hb hval hsvc
    simp only [CreateTransactionHandler.Handle, hm, hb, hval, hsvc]
    simpa using transactionErrorResponse_Status err r.RequestURI
  · intro r req hm hid huuid hb hval hsvc
    simp only [UpdateTransactionHandler.Handle, hm, hb, hval, hsvc, huuid]
    simpa [hid] using transactionErrorResponse_Status err r.RequestURI

/-- C15 at a concrete input: creating an entry for an account id that is not stored gives
404. -/
theorem transaction_handlers_error_status_witness :
    (CreateTransactionHandler.Handle canonicalUUID
      (NewTransactionService NewTransactionRepository NewAccountRepository "tx-9" 10)
      { Method := "POST", Path := "/api/v1/transactions", RequestURI := "/api/v1/transactions",
        Body := some (some { AccountID := "123e4567-e89b-12d3-a456-426614174000", Amount := 50,
                             Currency := "USD", Description := "", Category := "",
                             Type_ := "EXPENSE", Date := none }) }
      db1000).1.Status = 404 :=
  (transaction_handlers_error_status canonicalUUID
    (NewTransactionService NewTransactionRepository NewAccountRepository "tx-9" 10)
    db1000 db1000 (Error.ErrNotFound "account" "123e4567-e89b-12d3-a456-426614174000") none).1
    { Method := "POST", Path := "/api/v1/transactions", RequestURI := "/api/v1/transactions",
      Body := some (some { AccountID := "123e4567-e89b-12d3-a456-426614174000", Amount := 50,
                           Currency := "USD", Description := "", Category := "",
                           Type_ := "EXPENSE", Date := none }) }
    { AccountID := "123e4567-e89b-12d3-a456-426614174000", Amount := 50, Currency := "USD",
      Description := "", Category := "", Type_ := "EXPENSE", Date := none }
    rfl rfl (by decide!) (by decide!)

/-- C16, evaluated on well-formed UUID ids that are not stored: the transaction and the
account service return `ErrNotFound` (no row affected), and both delete handlers answer with
status 500, not 404. -/
theorem delete_handlers_answer_500_on_not_found :
    (DeleteTransaction NewTransactionRepository "123e4567-e89b-12d3-a456-426614174000"
        dbWithIncome).err =
      some (Error.ErrNotFound "transaction" "123e4567-e89b-12d3-a456-426614174000") ∧
    (DeleteTransactionHandler.Handle canonicalUUID
      (NewTransactionService NewTransactionRepository NewAccountRepository "tx-9" 10)
      { Method := "DELETE",
        Path := "/api/v1/transactions/123e4567-e89b-12d3-a456-426614174000",
        RequestURI := "/api/v1/transactions/123e4567-e89b-12d3-a456-426614174000",
        Body := none }
      dbWithIncome).1.Status = 500 ∧
    (DeleteAccount NewAccountRepository "123e4567-e89b-12d3-a456-426614174000"
        dbWithIncome).err =
      some (Error.ErrNotFound "account" "123e4567-e89b-12d3-a456-426614174000") ∧
    (DeleteAccountHandler.Handle canonicalUUID
      (NewAccountService NewAccountRepository NewUserRepository "acc-9")
      { Method := "DELETE",
        Path := "/api/v1/accounts/123e4567-e89b-12d3-a456-426614174000",
        RequestURI := "/api/v1/accounts/123e4567-e89b-12d3-a456-426614174000",
        Body := none }
      dbWithIncome).1.Status = 500 := by
  decide!

/-- C17: once `BeginTx` has succeeded, if `fn` returns nil then `WithTx` calls `Commit`
exactly once and `Rollback` never, and returns nil when the commit succeeds; if `fn` returns
an error `e` then `Commit` is never called, `Rollback` is called exactly once, and `WithTx`
returns `e` itself when the rollback succeeds and an error wrapping `e` when it fails. -/
theorem WithTx_commits_iff_fn_succeeds {σ : Type} (db : SqlTx σ) (fn : σ → Option Error × σ) (s s1 : σ)
    (hbegin : db.BeginTx s = (none, s1)) :
    ((fn s1).1 = none →
      (TxManager.WithTx db fn s).2.2 = [TxCall.BeginTx, TxCall.Commit] ∧
      ((db.Commit (fn s1).2).1 = none → (TxManager.WithTx db fn s).1 = none)) ∧
    (∀ e, (fn s1).1 = some e →
      (TxManager.WithTx db fn s).2.2 = [TxCall.BeginTx, TxCall.Rollback] ∧
      ((db.Rollback (fn s1).2).1 = none → (TxManager.WithTx db fn s).1 = some e) ∧
      (∀ rbErr, (db.Rollback (fn s1).2).1 = some rbErr →
        (TxManager.WithTx db fn s).1 = some (Error.rollback rbErr e) ∧
        (Error.rollback rbErr e).Unwrap = some e)) := by
  simp only [TxManager.WithTx, hbegin]
  rcases hf : fn s1 with ⟨_ | e, s2⟩
  · refine ⟨fun _ => ?_, fun e he => by simp at he⟩
    rcases hc : db.Commit s2 with ⟨_ | ce, s3⟩ <;> simp [hc]
  · refine ⟨fun h => by simp at h, fun e2 he => ?_⟩
    simp only [Option.some.injEq] at he
    subst he
    rcases hr : db.Rollback s2 with ⟨_ | rb, s3⟩ <;> simp [hr, Error.Unwrap]

/-- C17 at a concrete input: `fn` fails and the rollback succeeds. -/
theorem WithTx_commits_iff_fn_succeeds_witness :
    (TxManager.WithTx scriptedTx (fun s => (some (Error.driver "insert failed"), s))
        [none, none]).2.2 = [TxCall.BeginTx, TxCall.Rollback] ∧
    (TxManager.WithTx scriptedTx (fun s => (some (Error.driver "insert failed"), s))
        [none, none]).1 = some (Error.driver "insert failed") :=
  have h := (WithTx_commits_iff_fn_succeeds scriptedTx
    (fun s => (some (Error.driver "insert failed"), s)) [none, none] [none] rfl).2
    (Error.driver "insert failed") rfl
  ⟨h.1, h.2.1 rfl⟩

/-- C18: for every valid input on an existing account, when the call returns without error
`CreateTransaction` returns a transaction with a non-empty `ID` (the fresh UUID string), with
`AccountID`, `Amount`, `Currency`, `Description`, `Category` and `Type` equal to the inputs
and `Date` equal to the given date when it is non-zero and to the current time when it is
the zero time; the repository calls after the lookup are exactly one
`transactionRepo.Create`, of that transaction, and one `accountRepo.Update`. -/
theorem CreateTransaction_returns_entry_of_inputs {σ : Type} (tr : interfaces.TransactionRepository σ)
    (ar : interfaces.AccountRepository σ) (newID : String) (now : Time) (accountID : String)
    (amount : Float64) (currency description category : String) (transactionType : String)
    (date : Time) (s s1 : σ) (acc : entity.Account)
    (hnew : newID ≠ "") (hid : accountID ≠ "") (hamt : 0 < amount) (hcur : currency ≠ "")
    (hget : ar.GetByID accountID s = (some acc, none, s1))
    (hok : (CreateTransaction tr ar newID now accountID amount currency description category
        transactionType date s).err = none) :
    ∃ t a, (CreateTransaction tr ar newID now accountID amount currency description category
        transactionType date s).value = some t ∧
      t.ID ≠ "" ∧ t.AccountID = accountID ∧ t.Amount = amount ∧ t.Currency = currency ∧
      t.Description = description ∧ t.Category = category ∧ t.Type_ = transactionType ∧
      t.Date = (if date.IsZero then now else date) ∧
      (CreateTransaction tr ar newID now accountID amount currency description category
        transactionType date s).calls =
        [Call.accountGetByID accountID, Call.transactionCreate t, Call.accountUpdate a] := by
  rw [CreateTransaction_unfold_found tr ar newID now accountID amount currency description
    category transactionType date s s1 acc hid (Float64.not_le_of_lt 0 amount hamt) hcur hget] at hok ⊢
  rcases hc : tr.Create (newTransaction newID now accountID amount currency description
    category transactionType date) s1 with ⟨_ | e, s2⟩
  · rw [hc] at hok
    dsimp only at hok ⊢
    rcases hu : ar.Update (applyBalance acc transactionType amount) s2 with ⟨_ | e, s3⟩
    · exact ⟨newTransaction newID now accountID amount currency description category
        transactionType date, applyBalance acc transactionType amount,
        rfl, hnew, rfl, rfl, rfl, rfl, rfl, rfl, rfl, rfl⟩
    · rw [hu] at hok
      simp at hok
  · rw [hc] at hok
    simp at hok

/-- C18 at a concrete input: the grocery expense of the service test. -/
theorem CreateTransaction_returns_entry_of_inputs_witness :
    ∃ t, (CreateTransaction NewTransactionRepository NewAccountRepository "tx-7" 11 "acc-1" 50
        "USD" "Grocery store" "Food" "EXPENSE" 20240115 db1000).value = some t ∧
      t.Amount = 50 ∧ t.Description = "Grocery store" ∧ t.Date = 20240115 := by
  obtain ⟨t, _, hv, _, _, hamt, _, hdesc, _, _, hdate, _⟩ :=
    CreateTransaction_returns_entry_of_inputs NewTransactionRepository NewAccountRepository
      "tx-7" 11 "acc-1" 50 "USD" "Grocery store" "Food" "EXPENSE" 20240115 db1000 db1000
      domainAccount1000 (by decide) (by decide) (by decide!) (by decide) (by decide!)
      (by decide!)
  exact ⟨t, hv, hamt, hdesc, hdate⟩

/-- C19 (partial update): for every existing transaction `t` and every argument tuple, an
`UpdateTransaction` call that returns without error returns, and hands
`transactionRepo.Update`, a transaction whose `ID` and `AccountID` are those of `t` and in
which each of `Amount`, `Currency`, `Description`, `Category`, `Type` and `Date` is the
supplied value when that value is set (amount greater than zero, non-empty string, non-zero
time) and the value of `t` otherwise. -/
theorem UpdateTransaction_partial_update {σ : Type} (tr : interfaces.TransactionRepository σ)
    (id : String) (amount : Float64) (currency description category : String)
    (transactionType : String) (date : Time) (s s1 : σ) (t : entity.Transaction)
    (hget : tr.GetByID id s = (some t, none, s1))
    (hok : (UpdateTransaction tr id amount currency description category transactionType date
      s).err = none) :
    ∃ u, (UpdateTransaction tr id amount currency description category transactionType date
        s).value = some u ∧
      (UpdateTransaction tr id amount currency description category transactionType date
        s).calls = [Call.transactionGetByID id, Call.transactionUpdate u] ∧
      u.ID = t.ID ∧ u.AccountID = t.AccountID ∧
      u.Amount = (if amount > 0 then amount else t.Amount) ∧
      u.Currency = (if currency ≠ "" then currency else t.Currency) ∧
      u.Description = (if description ≠ "" then description else t.Description) ∧
      u.Category = (if category ≠ "" then category else t.Category) ∧
      u.Type_ = (if transactionType ≠ "" then transactionType else t.Type_) ∧
      u.Date = (if date.IsZero then t.Date else date) := by
  rw [UpdateTransaction_unfold_found tr id amount currency description category transactionType
    date s s1 t hget] at hok ⊢
  refine ⟨patchTransaction t amount currency description category transactionType date,
    ?_, rfl, patchTransaction_fields t amount currency description category transactionType
      date⟩
  simp only [Option.map_eq_none'] at hok
  simp [hok]

/-- C19 at a concrete input: only the amount of the stored income entry is changed. -/
theorem UpdateTransaction_partial_update_witness :
    ∃ u, (UpdateTransaction NewTransactionRepository "tx-1" 250 "" "" "" "" 0
        dbWithIncome).value = some u ∧
      u.Amount = 250 ∧ u.Description = "Salary" ∧ u.Date = 5 := by
  obtain ⟨u, hv, _, _, _, hamt, _, hdesc, _, _, hdate⟩ :=
    UpdateTransaction_partial_update NewTransactionRepository "tx-1" 250 "" "" "" "" 0
      dbWithIncome dbWithIncome
      { ID := "tx-1", AccountID := "acc-1", Amount := 100, Currency := "USD",
        Description := "Salary", Date := 5, Type_ := "INCOME", Category := "Income" }
      (by decide!) (by decide!)
  exact ⟨u, hv, by rw [hamt]; decide!, hdesc, hdate⟩

/-- C20 (update of a missing entity): for each of `UpdateTransaction`, `UpdateAccount` and
`UpdateUser`, when the repository's `GetByID` returns `(nil, nil)` for the id, the service
returns no entity and `ErrNotFound` with the entity name (`transaction`, `account`, `user`)
and that id, and its only repository call is that `GetByID` (`Update` is never called). -/
theorem update_of_missing_entity_is_not_found {σ : Type} (tr : interfaces.TransactionRepository σ)
    (ar : interfaces.AccountRepository σ) (ur : interfaces.UserRepository σ)
    (id : String) (amount : Float64) (currency description category : String)
    (transactionType : String) (date : Time) (name : String) (accountType : String)
    (email : String) (s s1 : σ) :
    (tr.GetByID id s = (none, none, s1) →
      (UpdateTransaction tr id amount currency description category transactionType date
        s).value = none ∧
      (UpdateTransaction tr id amount currency description category transactionType date
        s).err = some (Error.ErrNotFound "transaction" id) ∧
      (UpdateTransaction tr id amount currency description category transactionType date
        s).calls = [Call.transactionGetByID id]) ∧
    (ar.GetByID id s = (none, none, s1) →
      (UpdateAccount ar id name accountType currency s).value = none ∧
      (UpdateAccount ar id name accountType currency s).err =
        some (Error.ErrNotFound "account" id) ∧
      (UpdateAccount ar id name accountType currency s).calls = [Call.accountGetByID id]) ∧
    (ur.GetByID id s = (none, none, s1) →
      (UpdateUser ur id name email s).value = none ∧
      (UpdateUser ur id name email s).err = some (Error.ErrNotFound "user" id) ∧
      (UpdateUser ur id name email s).calls = [Call.userGetByID id]) := by
  refine ⟨fun h => ?_, fun h => ?_, fun h => ?_⟩
  · simp [UpdateTransaction, h, domainerrors.NewErrNotFound]
  · simp [UpdateAccount, h, domainerrors.NewErrNotFound]
  · simp [UpdateUser, h, domainerrors.NewErrNotFound]

/-- C20 at a concrete input: three ids that the database does not hold. -/
theorem update_of_missing_entity_is_not_found_witness :
    (UpdateTransaction NewTransactionRepository "missing" 5 "" "" "" "" 0 dbWithUser).err =
      some (Error.ErrNotFound "transaction" "missing") ∧
    (UpdateAccount NewAccountRepository "missing" "Name" "" "" dbWithUser).err =
      some (Error.ErrNotFound "account" "missing") ∧
    (UpdateUser NewUserRepository "missing" "Name" "" dbWithUser).err =
      some (Error.ErrNotFound "user" "missing") :=
  have h := update_of_missing_entity_is_not_found NewTransactionRepository
    NewAccountRepository NewUserRepository "missing" 5 "" "" "" "" 0 "Name" "" ""
    dbWithUser dbWithUser
  ⟨(h.1 (by decide!)).2.1, (h.2.1 (by decide!)).2.1, (h.2.2 (by decide!)).2.1⟩

end MoreClaims

/-! ## The claims on users, validators, contexts and the remaining ledger paths -/

section WrapLemmas

/-- An error is in its own `%w` chain. -/
theorem Error.wraps_self (e : Error) : Error.wraps e e = true := by
  cases e <;> simp [Error.wraps]

/-- `fmt.Errorf("<context>: %w", e)` wraps `e`. -/
theorem Error.wraps_wrapped (context : String) (e : Error) :
    Error.wraps e (Error.wrapped context e) = true := by
  simp [Error.wraps, Error.wraps_self]

end WrapLemmas

section ValidatorLemmas

open validator common

/-- An uppercase ASCII letter takes one byte. -/
theorem utf8Size_of_le_Z (c : Char) (h : c ≤ 'Z') : c.utf8Size = 1 := by
  have h1 : c.val.toNat ≤ 90 := h
  have h2 : c.val ≤ 127 := show c.val.toNat ≤ 127 from by omega
  simp [Char.utf8Size, h2]

/-- A text made of characters up to `'Z'` has as many bytes as characters. -/
theorem utf8Len_of_le_Z (cs : List Char) (h : ∀ c ∈ cs, c ≤ 'Z') :
    String.utf8Len cs = cs.length := by
  induction cs with
  | nil => rfl
  | cons c cs ih =>
    rw [String.utf8Len_cons, ih (fun x hx => h x (List.mem_cons_of_mem _ hx)),
      utf8Size_of_le_Z c (h c (List.mem_cons_self _ _)), List.length_cons]

/-- `matchRepeat` succeeds exactly on a group of `n` accepted characters followed by the rest. -/
theorem matchRepeat_eq_some (p : Char → Bool) :
    ∀ (n : Nat) (cs rest : List Char), matchRepeat p n cs = some rest ↔
      ∃ g, cs = g ++ rest ∧ g.length = n ∧ ∀ c ∈ g, p c = true := by
  intro n
  induction n with
  | zero =>
    intro cs rest
    simp only [matchRepeat, Option.some.injEq]
    constructor
    · intro h
      exact ⟨[], by simp [h], rfl, by simp⟩
    · rintro ⟨g, hg, hlen, -⟩
      have : g = [] := List.length_eq_zero.mp hlen
      subst this
      simpa using hg
  | succ n ih =>
    intro cs rest
    cases cs with
    | nil =>
      simp only [matchRepeat]
      constructor
      · intro h
        simp at h
      · rintro ⟨g, hg, hlen, -⟩
        have : g = [] := by
          have := congrArg List.length hg
          simp at this
          exact List.length_eq_zero.mp (by omega)
        subst this
        simp at hlen
    | cons c cs =>
      simp only [matchRepeat]
      by_cases hp : p c = true
      · rw [if_pos hp, ih]
        constructor
        · rintro ⟨g, hg, hlen, hall⟩
          refine ⟨c :: g, by simp [hg], by simp [hlen], ?_⟩
          intro x hx
          rcases List.mem_cons.mp hx with rfl | hx
          · exact hp
          · exact hall x hx
        · rintro ⟨g, hg, hlen, hall⟩
          cases g with
          | nil => simp at hlen
          | cons x g =>
            simp only [List.cons_append, List.cons.injEq] at hg
            refine ⟨g, hg.2, by simpa using hlen, fun y hy => hall y (List.mem_cons_of_mem _ hy)⟩
      · rw [if_neg hp]
        constructor
        · intro h
          simp at h
        · rintro ⟨g, hg, hlen, hall⟩
          cases g with
          | nil => simp at hlen
          | cons x g =>
            simp only [List.cons_append, List.cons.injEq] at hg
            exact absurd (hall x (List.mem_cons_self _ _)) (by rw [← hg.1]; exact hp)

/-- `matchItems` peels one group per item. -/
theorem matchItems_cons (item : Item) (items : List Item) (cs : List Char) :
    matchItems (item :: items) cs = true ↔
      ∃ g rest, cs = g ++ rest ∧ g.length = item.count ∧ (∀ c ∈ g, item.accepts c = true) ∧
        matchItems items rest = true := by
  simp only [matchItems]
  constructor
  · intro h
    rcases hm : matchRepeat item.accepts item.count cs with _ | rest
    · rw [hm] at h
      simp at h
    · rw [hm] at h
      obtain ⟨g, hg, hlen, hall⟩ := (matchRepeat_eq_some _ _ _ _).mp hm
      exact ⟨g, rest, hg, hlen, hall, h⟩
  · rintro ⟨g, rest, hg, hlen, hall, hrest⟩
    rw [(matchRepeat_eq_some _ _ _ _).mpr ⟨g, hg, hlen, hall⟩]
    exact hrest

/-- A single accepted hyphen is the text `-`. -/
theorem hyphen_group (g : List Char) :
    (g.length = 1 ∧ ∀ c ∈ g, hyphen c = true) ↔ g = ['-'] := by
  constructor
  · rintro ⟨hlen, hall⟩
    match g, hlen, hall with
    | [c], _, hall =>
      have := hall c (List.mem_cons_self _ _)
      simp only [hyphen, beq_iff_eq] at this
      rw [this]
  · rintro rfl
    exact ⟨rfl, by simp [hyphen]⟩

end ValidatorLemmas

section LastClaims

open postgres service fixture handler common validator

/-- C21 (unique email on creation): for every non-empty name and email, when
`repo.GetByEmail` returns an existing user for the email, `CreateUser` returns no user and
`ErrDuplicateEmail` carrying that email; its only repository call is that `GetByEmail`
(`repo.Create` is never called). -/
theorem CreateUser_duplicate_email {σ : Type} (repo : interfaces.UserRepository σ) (newID name email : String)
    (s s1 : σ) (existing : entity.User)
    (hname : name ≠ "") (hemail : email ≠ "")
    (hget : repo.GetByEmail email s = (some existing, none, s1)) :
    (CreateUser repo newID name email s).value = none ∧
    (CreateUser repo newID name email s).err = some (Error.ErrDuplicateEmail email) ∧
    (CreateUser repo newID name email s).calls = [Call.userGetByEmail email] := by
  simp [CreateUser, hname, hemail, hget, domainerrors.NewErrDuplicateEmail]

/-- C21 at a concrete input: the email of the stored user. -/
theorem CreateUser_duplicate_email_witness :
    (CreateUser NewUserRepository "user-2" "Jane Doe" "test@example.com" dbWithUser).err =
      some (Error.ErrDuplicateEmail "test@example.com") ∧
    (CreateUser NewUserRepository "user-2" "Jane Doe" "test@example.com" dbWithUser).calls =
      [Call.userGetByEmail "test@example.com"] :=
  (CreateUser_duplicate_email NewUserRepository "user-2" "Jane Doe" "test@example.com"
    dbWithUser dbWithUser
    { ID := "user-1", Name := "Test User", Email := "test@example.com", CreatedAt := 1,
      UpdatedAt := 1 }
    (by decide) (by decide) (by decide!)).2

/-- C22: `CreateAccount` writes nothing on a bad request. With an empty user id, name or
currency the result is no account and an `ErrInvalidInput`, with no repository call; with a
missing user it is no account and `ErrNotFound` for entity `user` and that id, the lookup
being the only call; and `accountRepo.Create` is called only if user id, name and currency
are all non-empty and `userRepo.GetByID` returns a user. -/
theorem CreateAccount_writes_nothing_on_bad_request {σ : Type} (ar : interfaces.AccountRepository σ)
    (ur : interfaces.UserRepository σ) (newID userID name : String) (accountType : String)
    (currency : String) (s : σ) :
    ((userID = "" ∨ name = "" ∨ currency = "") →
      (CreateAccount ar ur newID userID name accountType currency s).value = none ∧
      (∃ field msg, (CreateAccount ar ur newID userID name accountType currency s).err =
        some (Error.ErrInvalidInput field msg)) ∧
      (CreateAccount ar ur newID userID name accountType currency s).calls = []) ∧
    (userID ≠ "" → name ≠ "" → currency ≠ "" →
      (ur.GetByID userID s).1 = none → (ur.GetByID userID s).2.1 = none →
      (CreateAccount ar ur newID userID name accountType currency s).value = none ∧
      (CreateAccount ar ur newID userID name accountType currency s).err =
        some (Error.ErrNotFound "user" userID) ∧
      (CreateAccount ar ur newID userID name accountType currency s).calls =
        [Call.userGetByID userID]) ∧
    (∀ a, Call.accountCreate a ∈
        (CreateAccount ar ur newID userID name accountType currency s).calls →
      userID ≠ "" ∧ name ≠ "" ∧ currency ≠ "" ∧
      ∃ u, (ur.GetByID userID s).1 = some u ∧ (ur.GetByID userID s).2.1 = none) := by
  refine ⟨?_, ?_, ?_⟩
  · intro h
    by_cases h1 : userID = ""
    · simp [CreateAccount, h1, domainerrors.NewErrInvalidInput]
    by_cases h2 : name = ""
    · simp [CreateAccount, h1, h2, domainerrors.NewErrInvalidInput]
    have h3 : currency = "" := by tauto
    simp [CreateAccount, h1, h2, h3, domainerrors.NewErrInvalidInput]
  · intro h1 h2 h3 hu he
    rcases hg : ur.GetByID userID s with ⟨ou, oe, s1⟩
    rw [hg] at hu he
    simp only at hu he
    subst hu he
    simp [CreateAccount, h1, h2, h3, hg, domainerrors.NewErrNotFound]
  · intro a ha
    by_cases h1 : userID = ""
    · simp [CreateAccount, h1] at ha
    by_cases h2 : name = ""
    · simp [CreateAccount, h1, h2] at ha
    by_cases h3 : currency = ""
    · simp [CreateAccount, h1, h2, h3] at ha
    refine ⟨h1, h2, h3, ?_⟩
    rcases hg : ur.GetByID userID s with ⟨ou, oe, s1⟩
    rcases oe with _ | e
    swap
    · simp [CreateAccount, h1, h2, h3, hg] at ha
    rcases ou with _ | u
    · simp [CreateAccount, h1, h2, h3, hg] at ha
    · exact ⟨u, rfl, rfl⟩

/-- C22 at concrete inputs: an empty name, and a user id that is not stored. -/
theorem CreateAccount_writes_nothing_on_bad_request_witness :
    (CreateAccount NewAccountRepository NewUserRepository "acc-2" "user-1" "" "SAVINGS" "USD"
        dbWithUser).calls = [] ∧
    (CreateAccount NewAccountRepository NewUserRepository "acc-2" "missing" "Savings"
        "SAVINGS" "USD" dbWithUser).err = some (Error.ErrNotFound "user" "missing") :=
  ⟨((CreateAccount_writes_nothing_on_bad_request NewAccountRepository NewUserRepository
      "acc-2" "user-1" "" "SAVINGS" "USD" dbWithUser).1 (Or.inr (Or.inl rfl))).2.2,
   ((CreateAccount_writes_nothing_on_bad_request NewAccountRepository NewUserRepository
      "acc-2" "missing" "Savings" "SAVINGS" "USD" dbWithUser).2.1
      (by decide) (by decide) (by decide) (by decide!) (by decide!)).2.1⟩

/-- C23 (repository failures are surfaced): for every error `e`, when `repo.Create` returns
`e`, `CreateUser` returns no user and an error that wraps `e` (`errors.Is` holds), and when
`repo.Update` returns `e`, `UpdateUser` returns no user and an error that wraps `e`. -/
theorem user_service_surfaces_repository_errors {σ : Type} (repo : interfaces.UserRepository σ) (newID id name email : String)
    (s s1 s2 : σ) (e : Error) (left : entity.User) :
    (name ≠ "" → email ≠ "" → repo.GetByEmail email s = (none, none, s1) →
      repo.Create (newUser newID name email) s1 = (some e, left, s2) →
      (CreateUser repo newID name email s).value = none ∧
      ∃ w, (CreateUser repo newID name email s).err = some w ∧ Error.wraps e w = true) ∧
    (∀ user, repo.GetByID id s = (some user, none, s1) →
      repo.Update (patchUser user name email) s1 = (some e, left, s2) →
      (UpdateUser repo id name email s).value = none ∧
      ∃ w, (UpdateUser repo id name email s).err = some w ∧ Error.wraps e w = true) := by
  constructor
  · intro hname hemail hget hcreate
    simp only [CreateUser, if_neg hname, if_neg hemail, hget, hcreate]
    exact ⟨trivial, _, rfl, Error.wraps_wrapped _ e⟩
  · intro user hget hupd
    simp only [UpdateUser, hget, hupd]
    exact ⟨trivial, _, rfl, Error.wraps_wrapped _ e⟩

/-- C23 at a concrete input: the insert of a new user hits a storage fault. -/
theorem user_service_surfaces_repository_errors_witness :
    ∃ w, (CreateUser NewUserRepository "user-2" "John Doe" "john@example.com"
        dbWithUserFaultAtSecond).err = some w ∧
      Error.wraps (Error.driver "database error") w = true :=
  ((user_service_surfaces_repository_errors NewUserRepository "user-2" "user-1" "John Doe"
      "john@example.com" dbWithUserFaultAtSecond
      (NewUserRepository.GetByEmail "john@example.com" dbWithUserFaultAtSecond).2.2
      (NewUserRepository.Create (newUser "user-2" "John Doe" "john@example.com")
        (NewUserRepository.GetByEmail "john@example.com" dbWithUserFaultAtSecond).2.2).2.2
      (Error.driver "database error")
      (newUser "user-2" "John Doe" "john@example.com")).1
    (by decide) (by decide) (by decide!) (by decide!)).2

/-- C24: `common.ValidateCurrency` returns no error if and only if the string is exactly
three characters long and every character is an uppercase ASCII letter `A`..`Z`; the empty
string yields the `is required` message, a non-empty string whose length (in bytes) is not
three the `3-character ISO currency code` message, and a three-byte string with a character
outside `A`..`Z` the `only uppercase letters` message. -/
theorem ValidateCurrency_spec (currency fieldName : String) :
    (ValidateCurrency currency fieldName = none ↔
      currency.length = 3 ∧ ∀ c ∈ currency.toList, 'A' ≤ c ∧ c ≤ 'Z') ∧
    ValidateCurrency "" fieldName =
      some { Field := fieldName, Message := fieldName ++ " is required" } ∧
    (currency ≠ "" → currency.utf8ByteSize ≠ 3 →
      ValidateCurrency currency fieldName =
        some { Field := fieldName,
               Message := fieldName ++ " must be a 3-character ISO currency code" }) ∧
    (currency.utf8ByteSize = 3 → (∃ c ∈ currency.toList, c < 'A' ∨ 'Z' < c) →
      ValidateCurrency currency fieldName =
        some { Field := fieldName,
               Message := fieldName ++ " must contain only uppercase letters" }) := by
  refine ⟨?_, ?_, ?_, ?_⟩
  · constructor
    · intro h
      unfold ValidateCurrency at h
      split_ifs at h with h1 h2 h3
      have hall : ∀ c ∈ currency.toList, 'A' ≤ c ∧ c ≤ 'Z' := by
        intro c hc
        have := h3
        simp only [List.any_eq_true, not_exists, not_and, Bool.or_eq_true, decide_eq_true_eq,
          not_or, not_lt] at this
        exact this c hc
      refine ⟨?_, hall⟩
      have hlen := utf8Len_of_le_Z currency.toList (fun c hc => (hall c hc).2)
      have hb : currency.utf8ByteSize = 3 := by simpa using h2
      show currency.toList.length = 3
      rw [← hlen]
      exact hb
    · rintro ⟨hlen, hall⟩
      have hne : currency ≠ "" := by
        intro h
        rw [h] at hlen
        simp at hlen
      have hb : currency.utf8ByteSize = 3 := by
        have hl := utf8Len_of_le_Z currency.toList (fun c hc => (hall c hc).2)
        have hlen2 : currency.toList.length = 3 := hlen
        show String.utf8Len currency.toList = 3
        rw [hl, hlen2]
      have hany : currency.toList.any (fun c => decide (c < 'A') || decide (c > 'Z')) = false := by
        rw [List.any_eq_false]
        intro c hc
        have := hall c hc
        simp [not_lt.mpr this.1, not_lt.mpr this.2]
      unfold ValidateCurrency
      rw [if_neg hne, if_neg (not_not.mpr hb), hany]
      simp
  · simp [ValidateCurrency]
  · intro hne hb
    simp [ValidateCurrency, hne, hb]
  · rintro hb ⟨c, hc, hout⟩
    have hne : currency ≠ "" := by
      intro h
      rw [h] at hb
      exact absurd hb (by decide)
    have hany : currency.toList.any (fun c => decide (c < 'A') || decide (c > 'Z')) = true := by
      rw [List.any_eq_true]
      exact ⟨c, hc, by simpa using hout⟩
    unfold ValidateCurrency
    rw [if_neg hne, if_neg (not_not.mpr hb), if_pos hany]

/-- C24 at concrete inputs: `USD` passes, `usd` and the three-byte `€` get the uppercase
message, `US` the length message. -/
theorem ValidateCurrency_spec_witness :
    ValidateCurrency "USD" "currency" = none ∧
    ValidateCurrency "usd" "currency" =
      some { Field := "currency",
             Message := "currency" ++ " must contain only uppercase letters" } ∧
    ValidateCurrency "€" "currency" =
      some { Field := "currency",
             Message := "currency" ++ " must contain only uppercase letters" } ∧
    ValidateCurrency "US" "currency" =
      some { Field := "currency",
             Message := "currency" ++ " must be a 3-character ISO currency code" } :=
  ⟨(ValidateCurrency_spec "USD" "currency").1.mpr ⟨rfl, by decide⟩,
   (ValidateCurrency_spec "usd" "currency").2.2.2 (by decide) ⟨'u', by decide, Or.inr (by decide)⟩,
   (ValidateCurrency_spec "€" "currency").2.2.2 (by decide) ⟨'€', by decide, Or.inr (by decide)⟩,
   (ValidateCurrency_spec "US" "currency").2.2.1 (by decide) (by decide)⟩

/-- C25: `validator.ValidateUUID` returns true exactly for the strings made of five groups
of 8, 4, 4, 4 and 12 hexadecimal digits (either case) separated by single hyphens, with
nothing before or after; such a string has 36 characters, and every other string is
rejected. -/
theorem ValidateUUID_spec (value : String) :
    (validator.ValidateUUID value = true ↔
      ∃ g1 g2 g3 g4 g5 : List Char,
        value.toList = g1 ++ '-' :: (g2 ++ '-' :: (g3 ++ '-' :: (g4 ++ '-' :: g5))) ∧
        g1.length = 8 ∧ g2.length = 4 ∧ g3.length = 4 ∧ g4.length = 4 ∧ g5.length = 12 ∧
        ∀ c ∈ g1 ++ g2 ++ g3 ++ g4 ++ g5, hexDigit c = true) ∧
    (validator.ValidateUUID value = true → value.length = 36) := by
  have key : validator.ValidateUUID value = true ↔
      ∃ g1 g2 g3 g4 g5 : List Char,
        value.toList = g1 ++ '-' :: (g2 ++ '-' :: (g3 ++ '-' :: (g4 ++ '-' :: g5))) ∧
        g1.length = 8 ∧ g2.length = 4 ∧ g3.length = 4 ∧ g4.length = 4 ∧ g5.length = 12 ∧
        ∀ c ∈ g1 ++ g2 ++ g3 ++ g4 ++ g5, hexDigit c = true := by
    unfold validator.ValidateUUID MatchString uuidRegex
    constructor
    · intro h
      obtain ⟨g1, r1, e1, l1, a1, h⟩ := (matchItems_cons _ _ _).mp h
      obtain ⟨d1, r2, e2, l2, a2, h⟩ := (matchItems_cons _ _ _).mp h
      obtain ⟨g2, r3, e3, l3, a3, h⟩ := (matchItems_cons _ _ _).mp h
      obtain ⟨d2, r4, e4, l4, a4, h⟩ := (matchItems_cons _ _ _).mp h
      obtain ⟨g3, r5, e5, l5, a5, h⟩ := (matchItems_cons _ _ _).mp h
      obtain ⟨d3, r6, e6, l6, a6, h⟩ := (matchItems_cons _ _ _).mp h
      obtain ⟨g4, r7, e7, l7, a7, h⟩ := (matchItems_cons _ _ _).mp h
      obtain ⟨d4, r8, e8, l8, a8, h⟩ := (matchItems_cons _ _ _).mp h
      obtain ⟨g5, r9, e9, l9, a9, h⟩ := (matchItems_cons _ _ _).mp h
      have hr9 : r9 = [] := by simpa [matchItems] using h
      have hd1 := (hyphen_group d1).mp ⟨l2, a2⟩
      have hd2 := (hyphen_group d2).mp ⟨l4, a4⟩
      have hd3 := (hyphen_group d3).mp ⟨l6, a6⟩
      have hd4 := (hyphen_group d4).mp ⟨l8, a8⟩
      subst hr9 hd1 hd2 hd3 hd4
      refine ⟨g1, g2, g3, g4, g5, ?_, l1, l3, l5, l7, l9, ?_⟩
      · rw [e1, e2, e3, e4, e5, e6, e7, e8, e9]
        simp
      · intro c hc
        simp only [List.mem_append] at hc
        rcases hc with (((hc | hc) | hc) | hc) | hc
        · exact a1 c hc
        · exact a3 c hc
        · exact a5 c hc
        · exact a7 c hc
        · exact a9 c hc
    · rintro ⟨g1, g2, g3, g4, g5, hv, l1, l2, l3, l4, l5, hall⟩
      have hmem : ∀ g : List Char, (∀ c ∈ g, c ∈ g1 ++ g2 ++ g3 ++ g4 ++ g5) →
          ∀ c ∈ g, hexDigit c = true :=
        fun g hg c hc => hall c (hg c hc)
      refine (matchItems_cons _ _ _).mpr ⟨g1, _, hv, l1, hmem g1 (by simp +contextual), ?_⟩
      refine (matchItems_cons _ _ _).mpr ⟨['-'], _, rfl, rfl, by simp [hyphen], ?_⟩
      refine (matchItems_cons _ _ _).mpr ⟨g2, _, rfl, l2, hmem g2 (by simp +contextual), ?_⟩
      refine (matchItems_cons _ _ _).mpr ⟨['-'], _, rfl, rfl, by simp [hyphen], ?_⟩
      refine (matchItems_cons _ _ _).mpr ⟨g3, _, rfl, l3, hmem g3 (by simp +contextual), ?_⟩
      refine (matchItems_cons _ _ _).mpr ⟨['-'], _, rfl, rfl, by simp [hyphen], ?_⟩
      refine (matchItems_cons _ _ _).mpr ⟨g4, _, rfl, l4, hmem g4 (by simp +contextual), ?_⟩
      refine (matchItems_cons _ _ _).mpr ⟨['-'], _, rfl, rfl, by simp [hyphen], ?_⟩
      refine (matchItems_cons _ _ _).mpr ⟨g5, [], by simp, l5, hmem g5 (by simp +contextual), ?_⟩
      simp [matchItems]
  refine ⟨key, fun h => ?_⟩
  obtain ⟨g1, g2, g3, g4, g5, hv, l1, l2, l3, l4, l5, -⟩ := key.mp h
  show value.toList.length = 36
  rw [hv]
  simp [l1, l2, l3, l4, l5]

/-- C25 at the inputs of the package test: three UUIDs are accepted (each has 36
characters); a word, a truncated UUID, a UUID with a suffix and the empty string are
rejected. -/
theorem ValidateUUID_spec_witness :
    "123e4567-e89b-12d3-a456-426614174000".length = 36 ∧
    validator.ValidateUUID "00000000-0000-0000-0000-000000000000" = true ∧
    validator.ValidateUUID "FFFFFFFF-FFFF-FFFF-FFFF-FFFFFFFFFFFF" = true ∧
    validator.ValidateUUID "invalid" = false ∧
    validator.ValidateUUID "123e4567-e89b-12d3-a456" = false ∧
    validator.ValidateUUID "123e4567-e89b-12d3-a456-426614174000-extra" = false ∧
    validator.ValidateUUID "" = false :=
  ⟨(ValidateUUID_spec "123e4567-e89b-12d3-a456-426614174000").2 (by decide),
   by decide, by decide, by decide, by decide, by decide, by decide⟩

/-- C26, evaluated on a context that carries the open transaction stored by `WithTx`:
`GetExecutor` returns the transaction for that context, but `TransactionRepository.Create`
and `AccountRepository.Update` send their statements to the pool: the committed state
changes at once and the working state of the transaction does not. Run inside `WithTx` with
a function that inserts and then fails, the rollback leaves the inserted row committed. -/
theorem repositories_bypass_active_transaction :
    GetExecutor ctxWithTx = Executor.tx 1 ∧
    (TransactionRepository.CreateCtx ctxWithTx entry150 txdb1000).1 = none ∧
    (TransactionRepository.CreateCtx ctxWithTx entry150
        txdb1000).2.committed.transactions.map (fun r => r.ID) = ["tx-1"] ∧
    (TransactionRepository.CreateCtx ctxWithTx entry150 txdb1000).2.pending = some db1000 ∧
    (txdb1000.ExecContext (GetExecutor ctxWithTx)
        (TransactionRepository.Create entry150)).2.committed = db1000 ∧
    storedBalance (AccountRepository.UpdateCtx ctxWithTx
        { domainAccount1000 with Balance := 850 } txdb1000).2.committed "acc-1" = some 850 ∧
    (AccountRepository.UpdateCtx ctxWithTx { domainAccount1000 with Balance := 850 }
        txdb1000).2.pending = some db1000 ∧
    (TxManager.WithTx sqlTxDB
        (fun d => (some (Error.driver "update failed"),
          (TransactionRepository.CreateCtx ctxWithTx entry150 d).2))
        { committed := db1000, pending := none }).2.2 = [TxCall.BeginTx, TxCall.Rollback] ∧
    (TxManager.WithTx sqlTxDB
        (fun d => (some (Error.driver "update failed"),
          (TransactionRepository.CreateCtx ctxWithTx entry150 d).2))
        { committed := db1000, pending := none }).2.1.committed.transactions.map
      (fun r => r.ID) = ["tx-1"] := by
  decide!

/-- C27: for the type TRANSFER, and for every type other than INCOME and EXPENSE, a
`CreateTransaction` call that returns without error hands the entry (with that type) to
`transactionRepo.Create` and calls `accountRepo.Update` exactly once, with the account as it
was read (balance equal to the balance read). -/
theorem CreateTransaction_other_types_keep_balance {σ : Type} (tr : interfaces.TransactionRepository σ)
    (ar : interfaces.AccountRepository σ) (newID : String) (now : Time) (accountID : String)
    (amount : Float64) (currency description category : String) (transactionType : String)
    (date : Time) (s s1 : σ) (acc : entity.Account)
    (hid : accountID ≠ "") (hamt : 0 < amount) (hcur : currency ≠ "")
    (hty : transactionType ≠ constant.TransactionTypeIncome ∧
      transactionType ≠ constant.TransactionTypeExpense)
    (hget : ar.GetByID accountID s = (some acc, none, s1))
    (hok : (CreateTransaction tr ar newID now accountID amount currency description category
        transactionType date s).err = none) :
    ∃ t, t.Type_ = transactionType ∧
      (CreateTransaction tr ar newID now accountID amount currency description category
        transactionType date s).value = some t ∧
      (CreateTransaction tr ar newID now accountID amount currency description category
        transactionType date s).calls =
        [Call.accountGetByID accountID, Call.transactionCreate t, Call.accountUpdate acc] := by
  have happly : applyBalance acc transactionType amount = acc := by
    simp [applyBalance, hty.1, hty.2]
  rw [CreateTransaction_unfold_found tr ar newID now accountID amount currency description
    category transactionType date s s1 acc hid (Float64.not_le_of_lt 0 amount hamt) hcur hget, happly] at hok ⊢
  rcases hc : tr.Create (newTransaction newID now accountID amount currency description
    category transactionType date) s1 with ⟨_ | e, s2⟩
  · rw [hc] at hok
    dsimp only at hok ⊢
    rcases hu : ar.Update acc s2 with ⟨_ | e, s3⟩
    · exact ⟨_, rfl, rfl, rfl⟩
    · rw [hu] at hok
      simp at hok
  · rw [hc] at hok
    simp at hok

/-- C27 at a concrete input: a transfer of 75 on the account holding 1000. -/
theorem CreateTransaction_other_types_keep_balance_witness :
    ∃ t, t.Type_ = "TRANSFER" ∧
      (CreateTransaction NewTransactionRepository NewAccountRepository "tx-5" 10 "acc-1" 75
        "USD" "Move" "Savings" "TRANSFER" 0 db1000).calls =
        [Call.accountGetByID "acc-1", Call.transactionCreate t,
          Call.accountUpdate domainAccount1000] := by
  obtain ⟨t, hty, _, hcalls⟩ :=
    CreateTransaction_other_types_keep_balance NewTransactionRepository NewAccountRepository
      "tx-5" 10 "acc-1" 75 "USD" "Move" "Savings" "TRANSFER" 0 db1000 db1000
      domainAccount1000 (by decide) (by decide!) (by decide) (by decide) (by decide!)
      (by decide!)
  exact ⟨t, hty, hcalls⟩

/-- C28 (insert failure leaves the account alone): for every valid input on an existing
account, when `transactionRepo.Create` returns an error `e`, `CreateTransaction` returns no
transaction and an error wrapping `e`, never calls `accountRepo.Update`, and the store is the
one the failed insert left (no balance is written). -/
theorem CreateTransaction_insert_failure_leaves_account {σ : Type} (tr : interfaces.TransactionRepository σ)
    (ar : interfaces.AccountRepository σ) (newID : String) (now : Time) (accountID : String)
    (amount : Float64) (currency description category : String) (transactionType : String)
    (date : Time) (s s1 s2 : σ) (acc : entity.Account) (e : Error)
    (hid : accountID ≠ "") (hamt : 0 < amount) (hcur : currency ≠ "")
    (hget : ar.GetByID accountID s = (some acc, none, s1))
    (hcreate : tr.Create (newTransaction newID now accountID amount currency description
      category transactionType date) s1 = (some e, s2)) :
    (CreateTransaction tr ar newID now accountID amount currency description category
        transactionType date s).value = none ∧
    (∃ w, (CreateTransaction tr ar newID now accountID amount currency description category
        transactionType date s).err = some w ∧ Error.wraps e w = true) ∧
    (∀ a, Call.accountUpdate a ∉ (CreateTransaction tr ar newID now accountID amount currency
        description category transactionType date s).calls) ∧
    (CreateTransaction tr ar newID now accountID amount currency description category
        transactionType date s).state = s2 := by
  rw [CreateTransaction_unfold_found tr ar newID now accountID amount currency description
    category transactionType date s s1 acc hid (Float64.not_le_of_lt 0 amount hamt) hcur hget, hcreate]
  exact ⟨rfl, ⟨_, rfl, Error.wraps_wrapped _ e⟩, by simp, rfl⟩

/-- C28 at a concrete input: the ledger insert hits a storage fault; the stored balance is
still 1000. -/
theorem CreateTransaction_insert_failure_leaves_account_witness :
    (∃ w, (CreateTransaction NewTransactionRepository NewAccountRepository "tx-1" 10 "acc-1"
        150 "USD" "Gas" "Transport" "EXPENSE" 0 dbFaultAtInsert).err = some w ∧
      Error.wraps (Error.driver "insert failed") w = true) ∧
    storedBalance (CreateTransaction NewTransactionRepository NewAccountRepository "tx-1" 10
        "acc-1" 150 "USD" "Gas" "Transport" "EXPENSE" 0 dbFaultAtInsert).state "acc-1" =
      some 1000 :=
  ⟨(CreateTransaction_insert_failure_leaves_account NewTransactionRepository
      NewAccountRepository "tx-1" 10 "acc-1" 150 "USD" "Gas" "Transport" "EXPENSE" 0
      dbFaultAtInsert (NewAccountRepository.GetByID "acc-1" dbFaultAtInsert).2.2 db1000
      domainAccount1000 (Error.driver "insert failed")
      (by decide) (by decide!) (by decide) (by decide!) (by decide!)).2.1,
   by decide!⟩

/-- C29: `CreateTransaction` never compares the entry's currency with the account's: for
every non-empty currency, whatever the account's `Currency` is, when the account exists and
both repository writes succeed the call succeeds, the entry carries the given currency, and
the account handed to `accountRepo.Update` keeps its own currency and has the balance that
the code computes from the raw amount alone: the `float64` sum `Balance + amount` for
INCOME, the `float64` difference `Balance - amount` for EXPENSE, the balance as it was for
any other type. -/
theorem CreateTransaction_ignores_currency_mismatch {σ : Type} (tr : interfaces.TransactionRepository σ)
    (ar : interfaces.AccountRepository σ) (newID : String) (now : Time) (accountID : String)
    (amount : Float64) (currency description category : String) (transactionType : String)
    (date : Time) (s s1 s2 s3 : σ) (acc : entity.Account)
    (hid : accountID ≠ "") (hamt : 0 < amount) (hcur : currency ≠ "")
    (hget : ar.GetByID accountID s = (some acc, none, s1))
    (hcreate : tr.Create (newTransaction newID now accountID amount currency description
      category transactionType date) s1 = (none, s2))
    (hupd : ar.Update (applyBalance acc transactionType amount) s2 = (none, s3)) :
    (CreateTransaction tr ar newID now accountID amount currency description category
        transactionType date s).err = none ∧
    (∃ t a, t.Currency = currency ∧ a.Currency = acc.Currency ∧
      a.Balance =
        (if transactionType = "INCOME" then acc.Balance + amount
          else if transactionType = "EXPENSE" then acc.Balance - amount
          else acc.Balance) ∧
      (CreateTransaction tr ar newID now accountID amount currency description category
        transactionType date s).calls =
        [Call.accountGetByID accountID, Call.transactionCreate t, Call.accountUpdate a]) := by
  rw [CreateTransaction_unfold_found tr ar newID now accountID amount currency description
    category transactionType date s s1 acc hid (Float64.not_le_of_lt 0 amount hamt) hcur hget, hcreate]
  dsimp only
  rw [hupd]
  refine ⟨rfl, _, _, rfl, ?_, applyBalance_Balance acc transactionType amount, rfl⟩
  unfold applyBalance
  split_ifs <;> rfl

/-- C29 at a concrete input: an expense of 150 EUR on the USD account holding 1000 succeeds
and leaves 850, as the same expense in USD does. -/
theorem CreateTransaction_ignores_currency_mismatch_witness :
    (CreateTransaction NewTransactionRepository NewAccountRepository "tx-1" 10 "acc-1" 150
        "EUR" "Gas" "Transport" "EXPENSE" 0 db1000).err = none ∧
    domainAccount1000.Currency ≠ "EUR" ∧
    storedBalance (CreateTransaction NewTransactionRepository NewAccountRepository "tx-1" 10
        "acc-1" 150 "EUR" "Gas" "Transport" "EXPENSE" 0 db1000).state "acc-1" = some 850 ∧
    storedBalance (CreateTransaction NewTransactionRepository NewAccountRepository "tx-1" 10
        "acc-1" 150 "USD" "Gas" "Transport" "EXPENSE" 0 db1000).state "acc-1" = some 850 :=
  ⟨(CreateTransaction_ignores_currency_mismatch NewTransactionRepository NewAccountRepository
      "tx-1" 10 "acc-1" 150 "EUR" "Gas" "Transport" "EXPENSE" 0 db1000 db1000
      (NewTransactionRepository.Create
        (newTransaction "tx-1" 10 "acc-1" 150 "EUR" "Gas" "Transport" "EXPENSE" 0) db1000).2
      (NewAccountRepository.Update (applyBalance domainAccount1000 "EXPENSE" 150)
        (NewTransactionRepository.Create
          (newTransaction "tx-1" 10 "acc-1" 150 "EUR" "Gas" "Transport" "EXPENSE" 0)
          db1000).2).2
      domainAccount1000 (by decide) (by decide!) (by decide) (by decide!) (by decide!)
      (by decide!)).1,
   by decide, by decide!, by decide!⟩

/-- C30, evaluated on every context that the `RequestID` middleware builds over the
background context: the request id is in the context (`GetRequestID` returns it), but
`Logger.WithContext` looks it up under a key of another type and returns the receiver
unchanged, without a `request_id` attribute. -/
theorem WithContext_misses_middleware_request_id (l : logger.Logger)
    (headerID newID : String) :
    middleware.GetRequestID (middleware.RequestID headerID newID context.Background) =
      (if headerID = "" then newID else headerID) ∧
    logger.Logger.WithContext l (middleware.RequestID headerID newID context.Background) = l := by
  constructor
  · simp [middleware.GetRequestID, middleware.RequestID, context.Value, context.WithValue,
      context.Background]
  · have hkey : (middleware.RequestIDKey == logger.requestIDKey) = false := by decide
    simp [logger.Logger.WithContext, middleware.RequestID, context.Value, context.WithValue,
      context.Background, hkey]

end LastClaims

end Accounting
